import Mathlib

/-!
Formal model of the map-object rendering core of NovusCore-Client,
`src/client/Rendering/MapObjectRenderer.cpp`.

Embedding conventions used throughout this file:

* 32-bit float (`f32`) and half-float (`f16`) arithmetic is idealised as
  exact rational arithmetic over `ℚ`.  `glm::cos` and `glm::sin` are
  abstracted as function parameters (`rcos`, `rsin`) and `glm::distance`
  as a binary function parameter, all carried by the load environment,
  since square roots and trigonometric values are not rational.
* Machine integers (`u32`, `u16`, sizes) stay far below `2^32` in every
  code path modelled here, so they are modelled as `Nat`.
* `glm` matrices are stored column-major exactly as in glm: the field
  `cIrJ` of `Mat4` is `m[I][J]` of the C++ `mat4x4` (column `I`, row `J`).
  `Mat4.mul` is glm's `operator*`.
* Asset files (`.nmor` / `.nmo`) are modelled as streams of typed records
  (`BufItem`): the byte sizes of the binary structs live in headers that
  are not part of the provided sources, so each `Get<T>` / `GetBytes`
  call of the C++ `Bytebuffer` is modelled as consuming one typed record
  whose payload length must match the requested element count.  A
  truncated file is a stream that ends (or whose block is shorter than
  requested) before the parser is done.
* Struct layouts and constants that live in headers outside the provided
  sources (`Terrain::CullingData` defaults, the format token/version
  constants, `Terrain::PlacementDetails`) are modelled from the spec and
  marked as such in their doc comments.
* `DebugHandler::Print...` logging is modelled by the structured error
  value a load function returns; per the spec (section 7) load-time
  errors are reported to a logging collaborator and never abort the
  process.
-/

namespace NovusCore

/-- Rational 3-component vector standing for glm `vec3` (f32 idealised). -/
structure Vec3 where
  x : ℚ
  y : ℚ
  z : ℚ
deriving DecidableEq, Repr

/-- Rational 4-component vector standing for glm `vec4`. -/
structure Vec4 where
  x : ℚ
  y : ℚ
  z : ℚ
  w : ℚ
deriving DecidableEq, Repr

/-- glm `mat4x4`, stored column-major exactly like glm: `cIrJ = m[I][J]`
(column `I`, row `J`). -/
structure Mat4 where
  c0r0 : ℚ
  c0r1 : ℚ
  c0r2 : ℚ
  c0r3 : ℚ
  c1r0 : ℚ
  c1r1 : ℚ
  c1r2 : ℚ
  c1r3 : ℚ
  c2r0 : ℚ
  c2r1 : ℚ
  c2r2 : ℚ
  c2r3 : ℚ
  c3r0 : ℚ
  c3r1 : ℚ
  c3r2 : ℚ
  c3r3 : ℚ
deriving DecidableEq, Repr

/-- glm matrix product `m1 * m2`: `(m1*m2)[c][r] = Σ k, m1[k][r] * m2[c][k]`. -/
def Mat4.mul (a b : Mat4) : Mat4 where
  c0r0 := a.c0r0 * b.c0r0 + a.c1r0 * b.c0r1 + a.c2r0 * b.c0r2 + a.c3r0 * b.c0r3
  c0r1 := a.c0r1 * b.c0r0 + a.c1r1 * b.c0r1 + a.c2r1 * b.c0r2 + a.c3r1 * b.c0r3
  c0r2 := a.c0r2 * b.c0r0 + a.c1r2 * b.c0r1 + a.c2r2 * b.c0r2 + a.c3r2 * b.c0r3
  c0r3 := a.c0r3 * b.c0r0 + a.c1r3 * b.c0r1 + a.c2r3 * b.c0r2 + a.c3r3 * b.c0r3
  c1r0 := a.c0r0 * b.c1r0 + a.c1r0 * b.c1r1 + a.c2r0 * b.c1r2 + a.c3r0 * b.c1r3
  c1r1 := a.c0r1 * b.c1r0 + a.c1r1 * b.c1r1 + a.c2r1 * b.c1r2 + a.c3r1 * b.c1r3
  c1r2 := a.c0r2 * b.c1r0 + a.c1r2 * b.c1r1 + a.c2r2 * b.c1r2 + a.c3r2 * b.c1r3
  c1r3 := a.c0r3 * b.c1r0 + a.c1r3 * b.c1r1 + a.c2r3 * b.c1r2 + a.c3r3 * b.c1r3
  c2r0 := a.c0r0 * b.c2r0 + a.c1r0 * b.c2r1 + a.c2r0 * b.c2r2 + a.c3r0 * b.c2r3
  c2r1 := a.c0r1 * b.c2r0 + a.c1r1 * b.c2r1 + a.c2r1 * b.c2r2 + a.c3r1 * b.c2r3
  c2r2 := a.c0r2 * b.c2r0 + a.c1r2 * b.c2r1 + a.c2r2 * b.c2r2 + a.c3r2 * b.c2r3
  c2r3 := a.c0r3 * b.c2r0 + a.c1r3 * b.c2r1 + a.c2r3 * b.c2r2 + a.c3r3 * b.c2r3
  c3r0 := a.c0r0 * b.c3r0 + a.c1r0 * b.c3r1 + a.c2r0 * b.c3r2 + a.c3r0 * b.c3r3
  c3r1 := a.c0r1 * b.c3r0 + a.c1r1 * b.c3r1 + a.c2r1 * b.c3r2 + a.c3r1 * b.c3r3
  c3r2 := a.c0r2 * b.c3r0 + a.c1r2 * b.c3r1 + a.c2r2 * b.c3r2 + a.c3r2 * b.c3r3
  c3r3 := a.c0r3 * b.c3r0 + a.c1r3 * b.c3r1 + a.c2r3 * b.c3r2 + a.c3r3 * b.c3r3

instance : Mul Mat4 := ⟨Mat4.mul⟩

/-- glm `mat4x4(1.0f)`: the identity matrix. -/
def Mat4.identity : Mat4 where
  c0r0 := 1
  c0r1 := 0
  c0r2 := 0
  c0r3 := 0
  c1r0 := 0
  c1r1 := 1
  c1r2 := 0
  c1r3 := 0
  c2r0 := 0
  c2r1 := 0
  c2r2 := 1
  c2r3 := 0
  c3r0 := 0
  c3r1 := 0
  c3r2 := 0
  c3r3 := 1

/-- glm matrix-vector product `m * v`: `(m*v)[r] = Σ c, m[c][r] * v[c]`. -/
def Mat4.mulVec (m : Mat4) (v : Vec4) : Vec4 where
  x := m.c0r0 * v.x + m.c1r0 * v.y + m.c2r0 * v.z + m.c3r0 * v.w
  y := m.c0r1 * v.x + m.c1r1 * v.y + m.c2r1 * v.z + m.c3r1 * v.w
  z := m.c0r2 * v.x + m.c1r2 * v.y + m.c2r2 * v.z + m.c3r2 * v.w
  w := m.c0r3 * v.x + m.c1r3 * v.y + m.c2r3 * v.z + m.c3r3 * v.w

/-- glm `translate(m, v)`: copies `m` and sets
`Result[3] = m[0]*v.x + m[1]*v.y + m[2]*v.z + m[3]`. -/
def glmTranslate (m : Mat4) (v : Vec3) : Mat4 :=
  { m with
    c3r0 := m.c0r0 * v.x + m.c1r0 * v.y + m.c2r0 * v.z + m.c3r0
    c3r1 := m.c0r1 * v.x + m.c1r1 * v.y + m.c2r1 * v.z + m.c3r1
    c3r2 := m.c0r2 * v.x + m.c1r2 * v.y + m.c2r2 * v.z + m.c3r2
    c3r3 := m.c0r3 * v.x + m.c1r3 * v.y + m.c2r3 * v.z + m.c3r3 }

/-- The f32 constant glm multiplies degrees by in `glm::radians`
(idealised as an exact rational). -/
def glmRadiansCoeff : ℚ := 0.01745329251994329576923690768489

/-- glm `radians` applied componentwise to a `vec3` of degrees. -/
def glmRadians (v : Vec3) : Vec3 where
  x := v.x * glmRadiansCoeff
  y := v.y * glmRadiansCoeff
  z := v.z * glmRadiansCoeff

/-- glm `eulerAngleX angleX` (rotation about X), with cosine and sine
supplied as the abstract functions `rcos`, `rsin`. -/
def glmEulerAngleX (rcos rsin : ℚ → ℚ) (angleX : ℚ) : Mat4 where
  c0r0 := 1
  c0r1 := 0
  c0r2 := 0
  c0r3 := 0
  c1r0 := 0
  c1r1 := rcos angleX
  c1r2 := rsin angleX
  c1r3 := 0
  c2r0 := 0
  c2r1 := -(rsin angleX)
  c2r2 := rcos angleX
  c2r3 := 0
  c3r0 := 0
  c3r1 := 0
  c3r2 := 0
  c3r3 := 1

/-- glm `eulerAngleY angleY` (rotation about Y). -/
def glmEulerAngleY (rcos rsin : ℚ → ℚ) (angleY : ℚ) : Mat4 where
  c0r0 := rcos angleY
  c0r1 := 0
  c0r2 := -(rsin angleY)
  c0r3 := 0
  c1r0 := 0
  c1r1 := 1
  c1r2 := 0
  c1r3 := 0
  c2r0 := rsin angleY
  c2r1 := 0
  c2r2 := rcos angleY
  c2r3 := 0
  c3r0 := 0
  c3r1 := 0
  c3r2 := 0
  c3r3 := 1

/-- glm `eulerAngleZ angleZ` (rotation about Z). -/
def glmEulerAngleZ (rcos rsin : ℚ → ℚ) (angleZ : ℚ) : Mat4 where
  c0r0 := rcos angleZ
  c0r1 := rsin angleZ
  c0r2 := 0
  c0r3 := 0
  c1r0 := -(rsin angleZ)
  c1r1 := rcos angleZ
  c1r2 := 0
  c1r3 := 0
  c2r0 := 0
  c2r1 := 0
  c2r2 := 1
  c2r3 := 0
  c3r0 := 0
  c3r1 := 0
  c3r2 := 0
  c3r3 := 1

/-- glm `eulerAngleZYX(t1, t2, t3)` from `gtx/euler_angles.inl`: the fused
Z-then-Y-then-X rotation matrix, written out entry by entry exactly as in
glm (with `c1 = cos t1`, `s1 = sin t1`, etc.). -/
def glmEulerAngleZYX (rcos rsin : ℚ → ℚ) (t1 t2 t3 : ℚ) : Mat4 :=
  let c1 := rcos t1
  let c2 := rcos t2
  let c3 := rcos t3
  let s1 := rsin t1
  let s2 := rsin t2
  let s3 := rsin t3
  { c0r0 := c1 * c2
    c0r1 := s1 * c2
    c0r2 := -s2
    c0r3 := 0
    c1r0 := c1 * s2 * s3 - s1 * c3
    c1r1 := s1 * s2 * s3 + c1 * c3
    c1r2 := c2 * s3
    c1r3 := 0
    c2r0 := c1 * s2 * c3 + s1 * s3
    c2r1 := s1 * s2 * c3 - c1 * s3
    c2r2 := c2 * c3
    c2r3 := 0
    c3r0 := 0
    c3r1 := 0
    c3r2 := 0
    c3r3 := 1 }

/-- `Terrain::Placement`: immutable world placement of a map object.
Modelled from the spec for the fields the renderer reads: `uniqueID`,
`position`, `rotation` (Euler degrees) and the name reference. -/
structure Placement where
  uniqueID : Nat
  position : Vec3
  rotation : Vec3
  nameID : Nat
deriving DecidableEq, Repr

/-- `Terrain::RenderBatch`: one submesh draw descriptor read from a `.nmo`
file.  Modelled from the spec for the fields the renderer reads:
`materialID`, `startIndex`, `indexCount`. -/
structure RenderBatch where
  materialID : Nat
  startIndex : Nat
  indexCount : Nat
deriving DecidableEq, Repr

/-- `MapObjectRenderer::RenderBatchOffsets` (header not in the provided
sources; fields are exactly the four the `.cpp` writes and reads). -/
structure RenderBatchOffsets where
  baseVertexOffset : Nat
  baseIndexOffset : Nat
  baseVertexColor1Offset : Nat
  baseVertexColor2Offset : Nat
deriving DecidableEq, Repr

/-- `Terrain::CullingData`: model-space axis-aligned bounding box plus
bounding-sphere radius (f16 box corners and f32 radius idealised as ℚ). -/
structure CullingData where
  minBoundingBox : Vec3
  maxBoundingBox : Vec3
  boundingSphereRadius : ℚ
deriving DecidableEq, Repr

/-- Modelled from the spec: the default-constructed `Terrain::CullingData`
(header not under the provided sources) initialises the box to the
sentinel "infinite" box — a very large min corner and a very large
negative max corner — so that folding min/max over real boxes yields
their componentwise envelope. -/
def CullingData.default : CullingData where
  minBoundingBox := ⟨100000, 100000, 100000⟩
  maxBoundingBox := ⟨-100000, -100000, -100000⟩
  boundingSphereRadius := 0

/-- `Terrain::MapObjectMaterial` as read from a `.nmor` file.  Modelled
from the spec for the fields the renderer reads: `materialType`,
`transparencyMode`, the `unlit` flag and three texture-name IDs
(`2^32 - 1` meaning "no texture"). -/
structure MapObjectMaterial where
  materialType : Nat
  transparencyMode : Nat
  unlitFlag : Bool
  textureNameID0 : Nat
  textureNameID1 : Nat
  textureNameID2 : Nat
deriving DecidableEq, Repr

/-- `Terrain::MapObjectFlags` as read from a `.nmo` file.  Modelled from
the spec for the two flags the renderer reads (`exterior`,
`exteriorLit`). -/
structure MapObjectFlags where
  exterior : Bool
  exteriorLit : Bool
deriving DecidableEq, Repr

/-- `MapObjectRenderer::Material` (GPU-side material record built in
`LoadRoot`).  Field defaults are modelled from the spec (header not in
the provided sources): texture slots default to texture 0 (the 1x1 black
texture created in `CreatePermanentResources`), `alphaTestVal` to a
negative sentinel meaning "no alpha test". -/
structure Material where
  materialType : Nat
  unlit : Bool
  alphaTestVal : ℚ
  textureID0 : Nat
  textureID1 : Nat
  textureID2 : Nat
deriving DecidableEq, Repr

/-- Default-constructed `Material` (see `Material`). -/
def Material.default : Material where
  materialType := 0
  unlit := false
  alphaTestVal := -1
  textureID0 := 0
  textureID1 := 0
  textureID2 := 0

/-- `MapObjectRenderer::MaterialParameters` (per-render-batch GPU
record). -/
structure MaterialParameters where
  materialID : Nat
  exteriorLit : Nat
deriving DecidableEq, Repr

/-- `MapObjectRenderer::DrawParameters`: one indirect draw call
(`VkDrawIndexedIndirectCommand` layout). -/
structure DrawParameters where
  indexCount : Nat
  instanceCount : Nat
  firstIndex : Nat
  vertexOffset : Nat
  firstInstance : Nat
deriving DecidableEq, Repr

/-- `MapObjectRenderer::InstanceLookupData`: the per-draw-call side record
(instance ID, culling-data ID, material parameters, vertex-color
offsets). -/
structure InstanceLookupData where
  instanceID : Nat
  materialParamID : Nat
  cullingDataID : Nat
  vertexColorTextureID0 : Nat
  vertexColorTextureID1 : Nat
  vertexOffset : Nat
  vertexColor1Offset : Nat
  vertexColor2Offset : Nat
  loadedObjectID : Nat
deriving DecidableEq, Repr

/-- `MapObjectRenderer::InstanceData`: the per-placement world transform
uploaded to the GPU. -/
structure InstanceData where
  instanceMatrix : Mat4
deriving DecidableEq, Repr

/-- Default `InstanceData` (identity transform), used only as the
out-of-range fallback of total list indexing. -/
def InstanceData.default : InstanceData where
  instanceMatrix := Mat4.identity

/-- `MapObjectRenderer::LoadedMapObject`: one entry per distinct loaded
model asset. -/
structure LoadedMapObject where
  objectID : Nat
  debugName : String
  renderBatches : List RenderBatch
  renderBatchOffsets : List RenderBatchOffsets
  materialParameterIDs : List Nat
  baseVertexOffset : Nat
  baseCullingDataOffset : Nat
  baseMaterialOffset : Nat
  cullingData : List CullingData
  vertexColors0 : List Nat
  vertexColors1 : List Nat
  vertexColorTextureID0 : Nat
  vertexColorTextureID1 : Nat
  instanceIDs : List Nat
  drawParameterIDs : List Nat
  instanceCount : Nat
deriving DecidableEq, Repr

/-- Freshly emplaced (default-constructed) `LoadedMapObject`; the vertex
color texture slots default to texture 0 (modelled from the spec, header
not in the provided sources). -/
def LoadedMapObject.empty : LoadedMapObject where
  objectID := 0
  debugName := ""
  renderBatches := []
  renderBatchOffsets := []
  materialParameterIDs := []
  baseVertexOffset := 0
  baseCullingDataOffset := 0
  baseMaterialOffset := 0
  cullingData := []
  vertexColors0 := []
  vertexColors1 := []
  vertexColorTextureID0 := 0
  vertexColorTextureID1 := 0
  instanceIDs := []
  drawParameterIDs := []
  instanceCount := 0

/-- `Terrain::PlacementDetails`: maps a placement to its
`LoadedMapObject` index and its `InstanceData` index.  Modelled from the
spec for the two fields `ExecuteLoad` writes. -/
structure PlacementDetails where
  loadedIndex : Nat
  instanceIndex : Nat
deriving DecidableEq, Repr

/-- `MapObjectRenderer::MapObjectToBeLoaded`: a queued load request (the
C++ stores pointers to the placement and name; the model stores them by
value).  The scratch `meshRoot` / `meshes` members are populated only
during `LoadMapObject` and never read afterwards, so they are threaded
locally instead of being stored here. -/
structure MapObjectToBeLoaded where
  placement : Placement
  nmorName : String
  nmorNameHash : Nat
deriving DecidableEq, Repr

/-- `MapObjectRenderer::MeshRoot` (fields read from a `.nmor` file). -/
structure MeshRoot where
  numMaterials : Nat
  numMeshes : Nat
deriving DecidableEq, Repr

/-- `MapObjectRenderer::Mesh` (per-`.nmo` scratch record: render flags and
base offsets into the shared arrays). -/
structure Mesh where
  renderFlags : MapObjectFlags
  baseIndexOffset : Nat
  baseVertexOffset : Nat
  baseVertexColor1Offset : Nat
  baseVertexColor2Offset : Nat
deriving DecidableEq, Repr

/-- `u32` maximum, the "unused" sentinel for vertex-color offsets and
texture-name IDs. -/
def u32Max : Nat := 4294967295

/-- One typed record of a modelled asset file (see the module comment:
byte-level struct sizes are not available, so every `Bytebuffer` read of
the C++ is one typed record here).  Vertices carry an opaque payload
since the renderer never inspects their contents. -/
inductive BufItem where
  | header (token version : Nat)
  | word (v : Nat)
  | material (m : MapObjectMaterial)
  | flags (f : MapObjectFlags)
  | indexBlock (xs : List Nat)
  | vertexBlock (xs : List Nat)
  | colorBlock (xs : List Nat)
  | triangleBlock (n : Nat)
  | renderBatchBlock (xs : List RenderBatch)
  | cullingBlock (xs : List CullingData)
deriving DecidableEq, Repr

/-- A modelled `Bytebuffer`: the stream of yet-unread records. -/
abbrev Buffer := List BufItem

/-- `Bytebuffer::Get<u32>`: read one 32-bit word; fails on a truncated
(or differently-shaped) stream. -/
def getWord : Buffer → Option (Nat × Buffer)
  | .word v :: rest => some (v, rest)
  | _ => none

/-- `Bytebuffer::Get<Terrain::MapObjectRootHeader>` /
`Get<Terrain::MapObjectHeader>`: read the 8-byte `{token, version}`
header. -/
def getHeader : Buffer → Option (Nat × Nat × Buffer)
  | .header t v :: rest => some (t, v, rest)
  | _ => none

/-- `Bytebuffer::GetBytes` of one `Terrain::MapObjectMaterial`. -/
def getMaterial : Buffer → Option (MapObjectMaterial × Buffer)
  | .material m :: rest => some (m, rest)
  | _ => none

/-- `Bytebuffer::Get<Terrain::MapObjectFlags>`. -/
def getFlags : Buffer → Option (MapObjectFlags × Buffer)
  | .flags f :: rest => some (f, rest)
  | _ => none

/-- `Bytebuffer::GetBytes` of `n * sizeof(u16)` index bytes.  Reading zero
bytes always succeeds without consuming anything; otherwise the next
record must be an index block of exactly the requested length. -/
def getIndexBlock (n : Nat) (buf : Buffer) : Option (List Nat × Buffer) :=
  if n = 0 then some ([], buf)
  else
    match buf with
    | .indexBlock xs :: rest => if xs.length = n then some (xs, rest) else none
    | _ => none

/-- `Bytebuffer::GetBytes` of `n * sizeof(Terrain::MapObjectVertex)`. -/
def getVertexBlock (n : Nat) (buf : Buffer) : Option (List Nat × Buffer) :=
  if n = 0 then some ([], buf)
  else
    match buf with
    | .vertexBlock xs :: rest => if xs.length = n then some (xs, rest) else none
    | _ => none

/-- `Bytebuffer::GetBytes` of `n * sizeof(u32)` vertex-color bytes. -/
def getColorBlock (n : Nat) (buf : Buffer) : Option (List Nat × Buffer) :=
  if n = 0 then some ([], buf)
  else
    match buf with
    | .colorBlock xs :: rest => if xs.length = n then some (xs, rest) else none
    | _ => none

/-- `Bytebuffer::SkipRead(n * sizeof(Terrain::TriangleData))`. -/
def skipTriangleBlock (n : Nat) (buf : Buffer) : Option Buffer :=
  if n = 0 then some buf
  else
    match buf with
    | .triangleBlock m :: rest => if m = n then some rest else none
    | _ => none

/-- `Bytebuffer::GetBytes` of `n * sizeof(Terrain::RenderBatch)`. -/
def getRenderBatchBlock (n : Nat) (buf : Buffer) :
    Option (List RenderBatch × Buffer) :=
  if n = 0 then some ([], buf)
  else
    match buf with
    | .renderBatchBlock xs :: rest =>
        if xs.length = n then some (xs, rest) else none
    | _ => none

/-- `Bytebuffer::GetBytes` of `n * sizeof(Terrain::CullingData)`. -/
def getCullingBlock (n : Nat) (buf : Buffer) :
    Option (List CullingData × Buffer) :=
  if n = 0 then some ([], buf)
  else
    match buf with
    | .cullingBlock xs :: rest =>
        if xs.length = n then some (xs, rest) else none
    | _ => none

/-- The load-time error taxonomy (spec section 7); each value corresponds
to one `DebugHandler::PrintFatal` message (resp. silent `return false`)
of the C++ load path. -/
inductive LoadError where
  | badExtension
  | fileNotFound
  | invalidToken
  | versionOlder
  | versionNewer
  | truncated
deriving DecidableEq, Repr

/-- Modelled from the spec: the `{token, version}` constants of the two
asset formats (`Terrain::MAP_OBJECT_ROOT_TOKEN/VERSION`,
`Terrain::MAP_OBJECT_TOKEN/VERSION` live in headers outside the provided
sources); every theorem is parametric in them. -/
structure FormatConsts where
  rootToken : Nat
  rootVersion : Nat
  objToken : Nat
  objVersion : Nat
deriving DecidableEq, Repr

/-- The external collaborators of the load path: the file system (path to
file content), texture loading (`LoadTextureIntoArray` /
`CreateDataTextureIntoArray` return slots in the texture array), and the
idealised real-valued functions (cosine, sine, euclidean distance) used
by glm. -/
structure Env where
  file : String → Option Buffer
  loadTexture : Nat → Nat
  createVertexColorTexture : List Nat → Nat
  rcos : ℚ → ℚ
  rsin : ℚ → ℚ
  dist : Vec3 → Vec3 → ℚ

/-- The CPU-side shared geometry/material arrays of the renderer
(`_indices`, `_vertices`, `_materials`, `_materialParameters`,
`_cullingData`), grouped because they are exactly the fields the load
path (`LoadRoot` / `LoadMesh` / `LoadMapObject`) writes. -/
structure GeometryStore where
  indices : List Nat
  vertices : List Nat
  materials : List Material
  materialParameters : List MaterialParameters
  cullingData : List CullingData
deriving DecidableEq, Repr

/-- The GPU buffer handles owned by the renderer (`Renderer::BufferID`
fields; `none` is `BufferID::Invalid()`) together with the renderer's
buffer-ID allocator, modelled as a monotone counter. -/
structure BufferState where
  instanceLookupBuffer : Option Nat
  argumentBuffer : Option Nat
  culledArgumentBuffer : Option Nat
  drawCountBuffer : Option Nat
  triangleCountBuffer : Option Nat
  drawCountReadBackBuffer : Option Nat
  triangleCountReadBackBuffer : Option Nat
  vertexBuffer : Option Nat
  indexBuffer : Option Nat
  instanceBuffer : Option Nat
  materialBuffer : Option Nat
  materialParametersBuffer : Option Nat
  cullingDataBuffer : Option Nat
  nextBufferID : Nat
deriving DecidableEq, Repr

/-- The full CPU-side state of `MapObjectRenderer`. -/
structure RendererState where
  uniqueIdCounter : List (Nat × Nat)
  mapObjectsToBeLoaded : List MapObjectToBeLoaded
  mapObjectPlacementDetails : List PlacementDetails
  loadedMapObjects : List LoadedMapObject
  nameHashToIndexMap : List (Nat × Nat)
  geo : GeometryStore
  drawParameters : List DrawParameters
  instances : List InstanceData
  instanceLookupData : List InstanceLookupData
  numTriangles : Nat
  numSurvivingDrawCalls : Nat
  numSurvivingTriangles : Nat
  bufs : BufferState
deriving DecidableEq, Repr

/-- Association-list lookup standing for the `robin_hood` hash maps
(`_nameHashToIndexMap`, `_uniqueIdCounter`). -/
def alookup (m : List (Nat × Nat)) (k : Nat) : Option Nat :=
  (m.find? (fun p => p.1 == k)).map (·.2)

/-- `StringUtils::fnv1a_32` over the name's characters (asset names are
ASCII, where char values coincide with the UTF-8 bytes the C++
hashes). -/
def fnv1a32 (s : String) : Nat :=
  s.data.foldl (fun h c => ((h ^^^ c.toNat) * 16777619) % 4294967296) 2166136261

/-- `MapObjectRenderer::RegisterMapObjectToBeLoaded`: queue one placement,
deduplicated by `uniqueID` through `_uniqueIdCounter`. -/
def registerMapObjectToBeLoaded (mapObjectName : String)
    (mapObjectPlacement : Placement) (st : RendererState) : RendererState :=
  let uniqueID := mapObjectPlacement.uniqueID
  let count := (alookup st.uniqueIdCounter uniqueID).getD 0
  let st := { st with uniqueIdCounter := (uniqueID, count + 1) :: st.uniqueIdCounter }
  if count = 0 then
    { st with
      mapObjectsToBeLoaded := st.mapObjectsToBeLoaded ++
        [{ placement := mapObjectPlacement
           nmorName := mapObjectName
           nmorNameHash := fnv1a32 mapObjectName }] }
  else st

/-- `StringUtils::EndsWith` (character-list suffix check; the helper
itself lives outside the provided sources). -/
def strEndsWith (s suffix : String) : Bool :=
  decide (suffix.data.length ≤ s.data.length) &&
    s.data.drop (s.data.length - suffix.data.length) == suffix.data

/-- `std::string::substr(0, length - n)`: drop the last `n`
characters. -/
def strDropRight (s : String) (n : Nat) : String :=
  ⟨s.data.take (s.data.length - n)⟩

/-- Directory prefix of all map-object asset paths (the model keys files
by this relative path; `fs::absolute` is environment-dependent and
dropped). -/
def mapObjectDir : String := "Data/extracted/MapObjects/"

/-- `std::setw(3) << std::setfill('0') << i`: the zero-padded mesh index
of a `.nmo` file name. -/
def pad3 (i : Nat) : String :=
  if i < 10 then "00" ++ toString i
  else if i < 100 then "0" ++ toString i
  else toString i

/-- The material-reading loop of `MapObjectRenderer::LoadRoot`: read
`n` `Terrain::MapObjectMaterial` records, appending one `Material` per
record to `_materials`.  Returns success, the remaining stream and the
updated store (partial appends survive a truncation, as in the C++). -/
def loadMaterials (env : Env) : Nat → Buffer → GeometryStore →
    Bool × Buffer × GeometryStore
  | 0, buf, g => (true, buf, g)
  | n + 1, buf, g =>
    match getMaterial buf with
    | none => (false, buf, g)
    | some (m, buf) =>
      let matA := { Material.default with
        materialType := m.materialType
        unlit := m.unlitFlag }
      let matB :=
        if m.transparencyMode = 1 then { matA with alphaTestVal := 128 / 255 }
        else matA
      let matC :=
        if m.textureNameID0 < u32Max then
          { matB with textureID0 := env.loadTexture m.textureNameID0 }
        else matB
      let matD :=
        if m.textureNameID1 < u32Max then
          { matC with textureID1 := env.loadTexture m.textureNameID1 }
        else matC
      let matE :=
        if m.textureNameID2 < u32Max then
          { matD with textureID2 := env.loadTexture m.textureNameID2 }
        else matD
      loadMaterials env n buf { g with materials := g.materials ++ [matE] }

/-- `MapObjectRenderer::LoadRoot` on an already-opened `.nmor` stream:
header/token/version checks, the material loop, then the mesh count.
Returns the result, the remaining stream at the point the function
returned, and the (possibly partially extended) geometry store. -/
def loadRootBuf (C : FormatConsts) (env : Env) (buf : Buffer)
    (mapObject : LoadedMapObject) (g : GeometryStore) :
    (Except LoadError (MeshRoot × LoadedMapObject)) × Buffer × GeometryStore :=
  match getHeader buf with
  | none => (.error .truncated, buf, g)
  | some (token, version, buf) =>
    if token ≠ C.rootToken then (.error .invalidToken, buf, g)
    else if version ≠ C.rootVersion then
      if version < C.rootVersion then (.error .versionOlder, buf, g)
      else (.error .versionNewer, buf, g)
    else
      match getWord buf with
      | none => (.error .truncated, buf, g)
      | some (numMaterials, buf) =>
        let mapObject := { mapObject with baseMaterialOffset := g.materials.length }
        match loadMaterials env numMaterials buf g with
        | (false, buf, g) => (.error .truncated, buf, g)
        | (true, buf, g) =>
          match getWord buf with
          | none => (.error .truncated, buf, g)
          | some (numMeshes, buf) =>
            (.ok (⟨numMaterials, numMeshes⟩, mapObject), buf, g)

/-- The vertex-color-set loop of
`MapObjectRenderer::LoadIndicesAndVertices`: set `i` of `n` remaining
sets is appended to `vertexColors[i]`.  (For `i ≥ 2` the C++ writes out
of bounds of `vertexColors[2]`; no asset has more than two sets, and the
model drops such sets.) -/
def loadVertexColorSets : Nat → Nat → Buffer → LoadedMapObject →
    Bool × Buffer × LoadedMapObject
  | _, 0, buf, mapObject => (true, buf, mapObject)
  | i, n + 1, buf, mapObject =>
    match getWord buf with
    | none => (false, buf, mapObject)
    | some (numVertexColors, buf) =>
      if numVertexColors = 0 then loadVertexColorSets (i + 1) n buf mapObject
      else
        match getColorBlock numVertexColors buf with
        | none => (false, buf, mapObject)
        | some (xs, buf) =>
          let mapObject :=
            if i = 0 then
              { mapObject with vertexColors0 := mapObject.vertexColors0 ++ xs }
            else if i = 1 then
              { mapObject with vertexColors1 := mapObject.vertexColors1 ++ xs }
            else mapObject
          loadVertexColorSets (i + 1) n buf mapObject

/-- `MapObjectRenderer::LoadIndicesAndVertices`: record the mesh's base
offsets, append the index and vertex blocks to the shared arrays, then
read the vertex-color sets.  (The C++ also reads `_vertices[0].position`
into an unused local; that dead read is omitted.) -/
def loadIndicesAndVertices (buf : Buffer) (mesh : Mesh)
    (mapObject : LoadedMapObject) (g : GeometryStore) :
    Bool × Buffer × Mesh × LoadedMapObject × GeometryStore :=
  let mesh := { mesh with
    baseIndexOffset := g.indices.length
    baseVertexOffset := g.vertices.length }
  match getWord buf with
  | none => (false, buf, mesh, mapObject, g)
  | some (indexCount, buf) =>
    match getIndexBlock indexCount buf with
    | none => (false, buf, mesh, mapObject, g)
    | some (ix, buf) =>
      let g := { g with indices := g.indices ++ ix }
      match getWord buf with
      | none => (false, buf, mesh, mapObject, g)
      | some (vertexCount, buf) =>
        match getVertexBlock vertexCount buf with
        | none => (false, buf, mesh, mapObject, g)
        | some (vx, buf) =>
          let g := { g with vertices := g.vertices ++ vx }
          match getWord buf with
          | none => (false, buf, mesh, mapObject, g)
          | some (numVertexColorSets, buf) =>
            let mesh := { mesh with
              baseVertexColor1Offset :=
                if numVertexColorSets > 0 then mapObject.vertexColors0.length
                else u32Max
              baseVertexColor2Offset :=
                if numVertexColorSets > 1 then mapObject.vertexColors1.length
                else u32Max }
            match loadVertexColorSets 0 numVertexColorSets buf mapObject with
            | (false, buf, mapObject) => (false, buf, mesh, mapObject, g)
            | (true, buf, mapObject) => (true, buf, mesh, mapObject, g)

/-- The per-render-batch loop of `MapObjectRenderer::LoadRenderBatches`:
for each newly read batch (in order) push the mesh's offsets, allot a
`MaterialParameters` entry and remember its ID. -/
def addRenderBatchOffsets (mesh : Mesh) : List RenderBatch →
    LoadedMapObject → GeometryStore → LoadedMapObject × GeometryStore
  | [], mapObject, g => (mapObject, g)
  | renderBatch :: rest, mapObject, g =>
    let offsets : RenderBatchOffsets :=
      { baseVertexOffset := mesh.baseVertexOffset
        baseIndexOffset := mesh.baseIndexOffset
        baseVertexColor1Offset := mesh.baseVertexColor1Offset
        baseVertexColor2Offset := mesh.baseVertexColor2Offset }
    let materialParameterID := g.materialParameters.length
    let mapObject := { mapObject with
      renderBatchOffsets := mapObject.renderBatchOffsets ++ [offsets]
      materialParameterIDs := mapObject.materialParameterIDs ++ [materialParameterID] }
    let g := { g with
      materialParameters := g.materialParameters ++
        [{ materialID := mapObject.baseMaterialOffset + renderBatch.materialID
           exteriorLit :=
             if mesh.renderFlags.exteriorLit || mesh.renderFlags.exterior then 1
             else 0 }] }
    addRenderBatchOffsets mesh rest mapObject g

/-- `MapObjectRenderer::LoadRenderBatches`: skip the triangle data, read
the render batches and their culling data into the map object, and
allocate the per-batch material parameters. -/
def loadRenderBatches (buf : Buffer) (mesh : Mesh)
    (mapObject : LoadedMapObject) (g : GeometryStore) :
    Bool × Buffer × LoadedMapObject × GeometryStore :=
  match getWord buf with
  | none => (false, buf, mapObject, g)
  | some (numTriangleData, buf) =>
    match skipTriangleBlock numTriangleData buf with
    | none => (false, buf, mapObject, g)
    | some buf =>
      match getWord buf with
      | none => (false, buf, mapObject, g)
      | some (numRenderBatches, buf) =>
        match getRenderBatchBlock numRenderBatches buf with
        | none => (false, buf, mapObject, g)
        | some (bs, buf) =>
          let mapObject := { mapObject with renderBatches := mapObject.renderBatches ++ bs }
          let (mapObject, g) := addRenderBatchOffsets mesh bs mapObject g
          match getCullingBlock numRenderBatches buf with
          | none => (false, buf, mapObject, g)
          | some (cs, buf) =>
            let mapObject := { mapObject with cullingData := mapObject.cullingData ++ cs }
            (true, buf, mapObject, g)

/-- `MapObjectRenderer::LoadMesh` on an already-opened `.nmo` stream.
The C++ ignores the return value of the header read; a truncated stream
leaves the header variable uninitialised, modelled as `(0, 0)` (which
then fails the token check for any nonzero expected token). -/
def loadMeshBuf (C : FormatConsts) (buf : Buffer)
    (mapObject : LoadedMapObject) (g : GeometryStore) :
    (Except LoadError Mesh) × Buffer × LoadedMapObject × GeometryStore :=
  let (token, version, buf) := (getHeader buf).getD (0, 0, buf)
  if token ≠ C.objToken then (.error .invalidToken, buf, mapObject, g)
  else if version ≠ C.objVersion then
    if version < C.objVersion then (.error .versionOlder, buf, mapObject, g)
    else (.error .versionNewer, buf, mapObject, g)
  else
    match getFlags buf with
    | none => (.error .truncated, buf, mapObject, g)
    | some (renderFlags, buf) =>
      let mesh : Mesh :=
        { renderFlags := renderFlags
          baseIndexOffset := 0
          baseVertexOffset := 0
          baseVertexColor1Offset := 0
          baseVertexColor2Offset := 0 }
      match loadIndicesAndVertices buf mesh mapObject g with
      | (false, buf, _, mapObject, g) => (.error .truncated, buf, mapObject, g)
      | (true, buf, mesh, mapObject, g) =>
        match loadRenderBatches buf mesh mapObject g with
        | (false, buf, mapObject, g) => (.error .truncated, buf, mapObject, g)
        | (true, buf, mapObject, g) => (.ok mesh, buf, mapObject, g)

/-- The mesh loop of `MapObjectRenderer::LoadMapObject`: load mesh files
`<name>_000.nmo`, `<name>_001.nmo`, … (`i` is the next index, the first
argument the number of meshes still to load). -/
def loadMeshes (C : FormatConsts) (env : Env) (nameNoExt : String) :
    Nat → Nat → LoadedMapObject → GeometryStore →
    (Except LoadError Unit) × LoadedMapObject × GeometryStore
  | _, 0, mapObject, g => (.ok (), mapObject, g)
  | i, n + 1, mapObject, g =>
    let nmoPath := mapObjectDir ++ nameNoExt ++ "_" ++ pad3 i ++ ".nmo"
    match env.file nmoPath with
    | none => (.error .fileNotFound, mapObject, g)
    | some buf =>
      match loadMeshBuf C buf mapObject g with
      | (.error e, _, mapObject, g) => (.error e, mapObject, g)
      | (.ok _, _, mapObject, g) => loadMeshes C env nameNoExt (i + 1) n mapObject g

/-- The vertex-color padding of `MapObjectRenderer::LoadMapObject`: pad a
color array to a multiple of the 1024-texel texture width with black
(`glm::ceil` of the exact count idealised as ceiling division). -/
def padColors (xs : List Nat) : List Nat :=
  let width := 1024
  let height := (xs.length + (width - 1)) / width
  xs ++ List.replicate (width * height - xs.length) 0

/-- The vertex-color-texture creation step of
`MapObjectRenderer::LoadMapObject`: each non-empty color set is padded
and uploaded, and its texture ID recorded on the map object. -/
def createVertexColorTextures (env : Env) (mapObject : LoadedMapObject) :
    LoadedMapObject :=
  let mapObject :=
    if mapObject.vertexColors0.length > 0 then
      let padded := padColors mapObject.vertexColors0
      { mapObject with
        vertexColors0 := padded
        vertexColorTextureID0 := env.createVertexColorTexture padded }
    else mapObject
  if mapObject.vertexColors1.length > 0 then
    let padded := padColors mapObject.vertexColors1
    { mapObject with
      vertexColors1 := padded
      vertexColorTextureID1 := env.createVertexColorTexture padded }
  else mapObject

/-- One step of the per-model culling fold of
`MapObjectRenderer::LoadMapObject` (lines 490–503): keep the smaller min
corner and the larger max corner, componentwise, written with the same
strict comparisons as the C++. -/
def foldCullingStep (acc : CullingData) (cd : CullingData) : CullingData :=
  { acc with
    minBoundingBox :=
      ⟨if cd.minBoundingBox.x < acc.minBoundingBox.x then cd.minBoundingBox.x
        else acc.minBoundingBox.x,
       if cd.minBoundingBox.y < acc.minBoundingBox.y then cd.minBoundingBox.y
        else acc.minBoundingBox.y,
       if cd.minBoundingBox.z < acc.minBoundingBox.z then cd.minBoundingBox.z
        else acc.minBoundingBox.z⟩
    maxBoundingBox :=
      ⟨if cd.maxBoundingBox.x > acc.maxBoundingBox.x then cd.maxBoundingBox.x
        else acc.maxBoundingBox.x,
       if cd.maxBoundingBox.y > acc.maxBoundingBox.y then cd.maxBoundingBox.y
        else acc.maxBoundingBox.y,
       if cd.maxBoundingBox.z > acc.maxBoundingBox.z then cd.maxBoundingBox.z
        else acc.maxBoundingBox.z⟩ }

/-- The aggregate per-model `CullingData` built at the end of
`MapObjectRenderer::LoadMapObject`: fold the per-render-batch boxes over
a default-constructed entry, then set the bounding-sphere radius to half
the distance between the resulting corners. -/
def aggregateCullingData (dist : Vec3 → Vec3 → ℚ)
    (boxes : List CullingData) : CullingData :=
  let agg := boxes.foldl foldCullingStep CullingData.default
  { agg with
    boundingSphereRadius := dist agg.minBoundingBox agg.maxBoundingBox / 2 }

/-- `MapObjectRenderer::LoadMapObject`: check the `.nmor` extension, load
the root file, load every mesh file, create the vertex-color textures
and append the aggregate culling entry.  Returns the finished
`LoadedMapObject` (the C++ mutates the freshly emplaced entry in place
and pops it on failure; the model builds it functionally and lets the
caller append it on success) together with the geometry store, whose
partial appends survive a failure exactly as in the C++. -/
def loadMapObject (C : FormatConsts) (env : Env) (item : MapObjectToBeLoaded)
    (mapObject : LoadedMapObject) (g : GeometryStore) :
    (Except LoadError LoadedMapObject) × GeometryStore :=
  if ¬ strEndsWith item.nmorName ".nmor" then (.error .badExtension, g)
  else
    let mapObject := { mapObject with debugName := item.nmorName }
    let nmorPath := mapObjectDir ++ item.nmorName
    match env.file nmorPath with
    | none => (.error .fileNotFound, g)
    | some buf =>
      match loadRootBuf C env buf mapObject g with
      | (.error e, _, g) => (.error e, g)
      | (.ok (meshRoot, mapObject), _, g) =>
        let nameNoExt := strDropRight item.nmorName 5
        let mapObject := { mapObject with
          baseVertexOffset := g.vertices.length
          baseCullingDataOffset := g.cullingData.length }
        match loadMeshes C env nameNoExt 0 meshRoot.numMeshes mapObject g with
        | (.error e, _, g) => (.error e, g)
        | (.ok _, mapObject, g) =>
          let mapObject := createVertexColorTextures env mapObject
          let agg := aggregateCullingData env.dist mapObject.cullingData
          (.ok mapObject, { g with cullingData := g.cullingData ++ [agg] })

/-- Fallback values for total list indexing (the C++ indexes by raw `u32`
under invariants that keep every index in bounds). -/
def DrawParameters.default : DrawParameters :=
  ⟨0, 0, 0, 0, 0⟩

/-- Fallback `InstanceLookupData` for total list indexing. -/
def InstanceLookupData.default : InstanceLookupData :=
  ⟨0, 0, 0, 0, 0, 0, 0, 0, 0⟩

/-- Fallback `RenderBatch` for total list indexing. -/
def RenderBatch.default : RenderBatch := ⟨0, 0, 0⟩

/-- Fallback `RenderBatchOffsets` for total list indexing. -/
def RenderBatchOffsets.default : RenderBatchOffsets := ⟨0, 0, 0, 0⟩

/-- Fallback `CullingData` for total list indexing (same value as a
default-constructed one). -/
def CullingData.fallback : CullingData := CullingData.default

/-- The per-render-batch loop of `MapObjectRenderer::AddInstance`: for
batch `i` (with `n` batches still to do) append one `DrawParameters` and
one `InstanceLookupData` to the renderer arrays and remember the draw
parameter ID on the map object. -/
def addInstanceBatches (instanceID : Nat) : Nat → Nat →
    LoadedMapObject → RendererState → LoadedMapObject × RendererState
  | _, 0, mapObject, st => (mapObject, st)
  | i, n + 1, mapObject, st =>
    let renderBatch := mapObject.renderBatches.getD i RenderBatch.default
    let renderBatchOffsets :=
      mapObject.renderBatchOffsets.getD i RenderBatchOffsets.default
    let drawParameterID := st.drawParameters.length
    let mapObject := { mapObject with
      drawParameterIDs := mapObject.drawParameterIDs ++ [drawParameterID] }
    let drawParameters : DrawParameters :=
      { vertexOffset := renderBatchOffsets.baseVertexOffset
        firstIndex := renderBatchOffsets.baseIndexOffset + renderBatch.startIndex
        indexCount := renderBatch.indexCount
        firstInstance := drawParameterID
        instanceCount := 1 }
    let instanceLookupData : InstanceLookupData :=
      { loadedObjectID := mapObject.objectID
        instanceID := instanceID
        materialParamID := mapObject.materialParameterIDs.getD i 0
        cullingDataID := mapObject.baseCullingDataOffset
        vertexColorTextureID0 := mapObject.vertexColorTextureID0
        vertexColorTextureID1 := mapObject.vertexColorTextureID1
        vertexOffset := renderBatchOffsets.baseVertexOffset
        vertexColor1Offset := renderBatchOffsets.baseVertexColor1Offset
        vertexColor2Offset := renderBatchOffsets.baseVertexColor2Offset }
    let st := { st with
      drawParameters := st.drawParameters ++ [drawParameters]
      instanceLookupData := st.instanceLookupData ++ [instanceLookupData] }
    addInstanceBatches instanceID (i + 1) n mapObject st

/-- `MapObjectRenderer::AddInstance`: append one `InstanceData` whose
world transform is `translate(position) * eulerAngleZYX(rot.z, -rot.y,
-rot.x)` (rotation converted from degrees to radians), then one
`DrawParameters` / `InstanceLookupData` pair per render batch. -/
def addInstance (env : Env) (mapObject : LoadedMapObject)
    (placement : Placement) (st : RendererState) :
    LoadedMapObject × RendererState :=
  let instanceID := st.instances.length
  let mapObject := { mapObject with instanceIDs := mapObject.instanceIDs ++ [instanceID] }
  let pos := placement.position
  let rot := glmRadians placement.rotation
  let rotationMatrix := glmEulerAngleZYX env.rcos env.rsin rot.z (-rot.y) (-rot.x)
  let st := { st with
    instances := st.instances ++
      [⟨(glmTranslate Mat4.identity pos).mul rotationMatrix⟩] }
  let (mapObject, st) :=
    addInstanceBatches instanceID 0 mapObject.renderBatches.length mapObject st
  let mapObject := { mapObject with instanceCount := mapObject.instanceCount + 1 }
  (mapObject, st)

/-- The tail of one `ExecuteLoad` loop iteration once the placement's
`LoadedMapObject` index is known: append the placement details, then add
the placement as an instance (the C++ passes
`_loadedMapObjects[mapObjectID]` by reference; the model reads the
entry, lets `AddInstance` update it, and writes it back). -/
def finishPlacement (env : Env) (item : MapObjectToBeLoaded)
    (mapObjectID : Nat) (st : RendererState) : RendererState :=
  let st := { st with
    mapObjectPlacementDetails := st.mapObjectPlacementDetails ++
      [{ loadedIndex := mapObjectID, instanceIndex := st.instances.length }] }
  let mapObject := st.loadedMapObjects.getD mapObjectID LoadedMapObject.empty
  let (mapObject, st) := addInstance env mapObject item.placement st
  { st with loadedMapObjects := st.loadedMapObjects.set mapObjectID mapObject }

/-- One `ExecuteLoad` loop iteration: a name hash already in
`_nameHashToIndexMap` reuses the existing `LoadedMapObject`; a new hash
loads the object, pops it again on failure (contributing nothing but the
partial geometry appends), and records its index in the map on
success. -/
def processPlacement (C : FormatConsts) (env : Env)
    (item : MapObjectToBeLoaded) (st : RendererState) :
    RendererState × Option LoadError :=
  match alookup st.nameHashToIndexMap item.nmorNameHash with
  | some mapObjectID => (finishPlacement env item mapObjectID st, none)
  | none =>
    let mapObjectID := st.loadedMapObjects.length
    let emplaced := { LoadedMapObject.empty with objectID := mapObjectID }
    match loadMapObject C env item emplaced st.geo with
    | (.error e, g) => ({ st with geo := g }, some e)
    | (.ok mapObject, g) =>
      let st := { st with
        geo := g
        loadedMapObjects := st.loadedMapObjects ++ [mapObject]
        nameHashToIndexMap := (item.nmorNameHash, mapObjectID) :: st.nameHashToIndexMap }
      (finishPlacement env item mapObjectID st, none)

/-- The placement loop of `MapObjectRenderer::ExecuteLoad`, returning the
final state and the list of per-placement load errors that were logged
(each logged error corresponds to one skipped placement). -/
def executeLoadLoop (C : FormatConsts) (env : Env) :
    List MapObjectToBeLoaded → RendererState → RendererState × List LoadError
  | [], st => (st, [])
  | item :: rest, st =>
    match processPlacement C env item st with
    | (st, none) => executeLoadLoop C env rest st
    | (st, some e) =>
      let (st1, errs) := executeLoadLoop C env rest st
      (st1, e :: errs)

/-- One recorded GPU command (calls on `Renderer` / `CommandList` whose
effects the claims are about).  `writeMapped` is the CPU `memcpy` into a
mapped staging buffer; `bindOther` marks descriptor binds to resources
the model does not track (culling constants, depth sampler/pyramid). -/
inductive GpuCmd where
  | createBuffer (name : String) (size : Nat) (id : Nat)
  | queueDestroyBuffer (id : Nat)
  | mapBuffer (id : Nat)
  | writeMapped (id : Nat) (size : Nat)
  | unmapBuffer (id : Nat)
  | copyBuffer (dst : Nat) (dstOffset : Nat) (src : Nat) (srcOffset : Nat) (size : Nat)
  | bindBuffer (slot : String) (id : Nat)
  | bindOther (slot : String)
  | fillBuffer (id : Nat) (offset : Nat) (size : Nat) (value : Nat)
  | pipelineBarrier (id : Nat)
  | beginPipeline
  | endPipeline
  | bindDescriptorSet (slot : String)
  | setIndexBuffer (id : Nat)
  | updateCullingConstants (maxDrawCount : Nat) (occlusionEnabled : Bool)
  | dispatch (x y z : Nat)
  | drawIndexedIndirectCount (argBuffer countBuffer maxDrawCount : Nat)
deriving DecidableEq, Repr

/-- The (old, new, staging) buffer IDs of one rebuilt buffer kind in
`MapObjectRenderer::CreateBuffers`. -/
structure RebuildInfo where
  oldBuffer : Option Nat
  newBuffer : Nat
  stagingBuffer : Nat
deriving DecidableEq, Repr

/-- The buffer-rebuild pattern repeated for each buffer kind in
`MapObjectRenderer::CreateBuffers`: queue the old buffer (if valid) for
deferred destruction, create the new device buffer, create a
host-visible staging buffer, map it, copy the CPU array into it, unmap
it, queue the staging buffer for deferred destruction, and record the
device-side copy from staging to the new buffer, followed by the block's
descriptor binds. -/
def rebuildBuffer (name stagingName : String) (size : Nat)
    (old : Option Nat) (binds : List String) (nextID : Nat) :
    RebuildInfo × Nat × List GpuCmd :=
  let destroyOld : List GpuCmd :=
    match old with
    | some b => [.queueDestroyBuffer b]
    | none => []
  let newId := nextID
  let stagingId := nextID + 1
  (⟨old, newId, stagingId⟩, nextID + 2,
    destroyOld ++
      [.createBuffer name size newId,
       .createBuffer stagingName size stagingId,
       .mapBuffer stagingId,
       .writeMapped stagingId size,
       .unmapBuffer stagingId,
       .queueDestroyBuffer stagingId,
       .copyBuffer newId 0 stagingId 0 size] ++
      binds.map (fun s => .bindBuffer s newId))

/-- Descriptor of one rebuilt buffer kind of
`MapObjectRenderer::CreateBuffers`: its debug names, the length of the
CPU array it uploads, which handle field it replaces, and its descriptor
binds. -/
structure BufferKind where
  name : String
  stagingName : String
  binds : List String
  size : RendererState → Nat
  getOld : BufferState → Option Nat
  setNew : BufferState → Nat → BufferState

/-- Run the rebuild pattern for each buffer kind in order, threading the
renderer state and collecting the recorded commands and the per-kind
rebuild info. -/
def rebuildMany : List BufferKind → RendererState →
    RendererState × List GpuCmd × List RebuildInfo
  | [], st => (st, [], [])
  | k :: ks, st =>
    let (info, nid, cmds) :=
      rebuildBuffer k.name k.stagingName (k.size st) (k.getOld st.bufs)
        k.binds st.bufs.nextBufferID
    let bufs := { k.setNew st.bufs info.newBuffer with nextBufferID := nid }
    let (st1, cmds1, infos) := rebuildMany ks { st with bufs := bufs }
    (st1, cmds ++ cmds1, info :: infos)

/-- The three buffer kinds rebuilt before the counter buffers, in source
order: instance-lookup, indirect-argument, culled-indirect-argument. -/
def bufferKindsA : List BufferKind :=
  [{ name := "InstanceLookupDataBuffer"
     stagingName := "InstanceLookupDataStaging"
     binds := ["pass._packedInstanceLookup", "culling._packedInstanceLookup"]
     size := fun st => st.instanceLookupData.length
     getOld := fun b => b.instanceLookupBuffer
     setNew := fun b id => { b with instanceLookupBuffer := some id } },
   { name := "MapObjectIndirectArgs"
     stagingName := "MapObjectIndirectStaging"
     binds := []
     size := fun st => st.drawParameters.length
     getOld := fun b => b.argumentBuffer
     setNew := fun b id => { b with argumentBuffer := some id } },
   { name := "MapObjectCulledIndirectArgs"
     stagingName := "MapObjectIndirectStaging"
     binds := []
     size := fun st => st.drawParameters.length
     getOld := fun b => b.culledArgumentBuffer
     setNew := fun b id => { b with culledArgumentBuffer := some id } }]

/-- The six buffer kinds rebuilt after the counter buffers, in source
order: vertex, index, instance, material, material-parameter,
culling-data. -/
def bufferKindsB : List BufferKind :=
  [{ name := "MapObjectVertexBuffer"
     stagingName := "MapObjectVertexStaging"
     binds := ["pass._packedVertices"]
     size := fun st => st.geo.vertices.length
     getOld := fun b => b.vertexBuffer
     setNew := fun b id => { b with vertexBuffer := some id } },
   { name := "MapObjectIndexBuffer"
     stagingName := "MapObjectIndexStaging"
     binds := []
     size := fun st => st.geo.indices.length
     getOld := fun b => b.indexBuffer
     setNew := fun b id => { b with indexBuffer := some id } },
   { name := "MapObjectInstanceBuffer"
     stagingName := "MapObjectInstanceStaging"
     binds := ["pass._instanceData", "culling._instanceData"]
     size := fun st => st.instances.length
     getOld := fun b => b.instanceBuffer
     setNew := fun b id => { b with instanceBuffer := some id } },
   { name := "MapObjectMaterialBuffer"
     stagingName := "MapObjectMaterialStaging"
     binds := ["pass._packedMaterialData"]
     size := fun st => st.geo.materials.length
     getOld := fun b => b.materialBuffer
     setNew := fun b id => { b with materialBuffer := some id } },
   { name := "MapObjectMaterialParamBuffer"
     stagingName := "MapObjectMaterialParamStaging"
     binds := ["pass._packedMaterialParams"]
     size := fun st => st.geo.materialParameters.length
     getOld := fun b => b.materialParametersBuffer
     setNew := fun b id => { b with materialParametersBuffer := some id } },
   { name := "MapObjectCullingDataBuffer"
     stagingName := "MapObjectCullingDataStaging"
     binds := ["culling._packedCullingData"]
     size := fun st => st.geo.cullingData.length
     getOld := fun b => b.cullingDataBuffer
     setNew := fun b id => { b with cullingDataBuffer := some id } }]

/-- The create-once blocks of `MapObjectRenderer::CreateBuffers`: the
draw-count and triangle-count buffers (plus their CPU-readable readback
buffers) are created on the first call and never rebuilt. -/
def createCountBuffers (st : RendererState) : RendererState × List GpuCmd :=
  let (st, cmds1) :=
    match st.bufs.drawCountBuffer with
    | some _ => (st, ([] : List GpuCmd))
    | none =>
      let id := st.bufs.nextBufferID
      let rb := st.bufs.nextBufferID + 1
      ({ st with bufs := { st.bufs with
          drawCountBuffer := some id
          drawCountReadBackBuffer := some rb
          nextBufferID := st.bufs.nextBufferID + 2 } },
       [.createBuffer "MapObjectDrawCount" 1 id,
        .createBuffer "MapObjectDrawCount" 1 rb])
  let (st, cmds2) :=
    match st.bufs.triangleCountBuffer with
    | some _ => (st, ([] : List GpuCmd))
    | none =>
      let id := st.bufs.nextBufferID
      let rb := st.bufs.nextBufferID + 1
      ({ st with bufs := { st.bufs with
          triangleCountBuffer := some id
          triangleCountReadBackBuffer := some rb
          nextBufferID := st.bufs.nextBufferID + 2 } },
       [.createBuffer "MapObjectTriangleCount" 1 id,
        .createBuffer "MapObjectTriangleCount" 1 rb])
  (st, cmds1 ++ cmds2)

/-- `MapObjectRenderer::CreateBuffers`: rebuild the nine data buffers
(in source order, with the create-once counter buffers in between) and
collect the recorded commands and the nine rebuild infos. -/
def createBuffers (st : RendererState) :
    RendererState × List GpuCmd × List RebuildInfo :=
  let (st, trA, infosA) := rebuildMany bufferKindsA st
  let (st, trC) := createCountBuffers st
  let (st, trB, infosB) := rebuildMany bufferKindsB st
  (st, trA ++ (trC ++ trB), infosA ++ infosB)

/-- `_numTriangles` as recomputed at the end of `ExecuteLoad`:
`Σ indexCount / 3` over all draw parameters. -/
def computeNumTriangles (dps : List DrawParameters) : Nat :=
  dps.foldl (fun acc dp => acc + dp.indexCount / 3) 0

/-- `MapObjectRenderer::ExecuteLoad`: an empty pending list returns
immediately; otherwise run the placement loop, rebuild the GPU buffers,
clear the pending list and recompute the triangle total.  Returns the
new state, the recorded GPU commands, and the logged load errors. -/
def executeLoad (C : FormatConsts) (env : Env) (st : RendererState) :
    RendererState × List GpuCmd × List LoadError :=
  if st.mapObjectsToBeLoaded.length = 0 then (st, [], [])
  else
    let (st, errs) := executeLoadLoop C env st.mapObjectsToBeLoaded st
    let (st, trace, _) := createBuffers st
    let st := { st with mapObjectsToBeLoaded := [] }
    let st := { st with numTriangles := computeNumTriangles st.drawParameters }
    (st, trace, errs)

/-- `MapObjectRenderer::Clear` (note the C++ does not clear
`_mapObjectsToBeLoaded`). -/
def clear (st : RendererState) : RendererState :=
  { st with
    uniqueIdCounter := []
    mapObjectPlacementDetails := []
    loadedMapObjects := []
    nameHashToIndexMap := []
    geo := { indices := [], vertices := [], materials := []
             materialParameters := [], cullingData := [] }
    drawParameters := []
    instances := []
    instanceLookupData := [] }

/-- One debug-renderer call recorded by `MapObjectRenderer::Update`. -/
inductive DebugCmd where
  | drawAABB3D (boxMin boxMax : Vec3) (color : Nat)
deriving DecidableEq, Repr

/-- The bounding-box debug loop of `MapObjectRenderer::Update`: for every
draw parameter, look up its instance and culling data and draw the
world-space box (`abs`-matrix extent transform as in the C++; `f16`
halving idealised as exact). -/
def debugBoundingBoxCmds (st : RendererState) : List DebugCmd :=
  (List.range st.drawParameters.length).map (fun i =>
    let drawParameters := st.drawParameters.getD i DrawParameters.default
    let instanceID := drawParameters.firstInstance
    let instanceLookupData :=
      st.instanceLookupData.getD instanceID InstanceLookupData.default
    let instanceData :=
      st.instances.getD instanceLookupData.instanceID InstanceData.default
    let cullingData :=
      st.geo.cullingData.getD instanceLookupData.cullingDataID CullingData.fallback
    let center : Vec3 :=
      ⟨(cullingData.minBoundingBox.x + cullingData.maxBoundingBox.x) * (1 / 2),
       (cullingData.minBoundingBox.y + cullingData.maxBoundingBox.y) * (1 / 2),
       (cullingData.minBoundingBox.z + cullingData.maxBoundingBox.z) * (1 / 2)⟩
    let extents : Vec3 :=
      ⟨cullingData.maxBoundingBox.x - center.x,
       cullingData.maxBoundingBox.y - center.y,
       cullingData.maxBoundingBox.z - center.z⟩
    let m := instanceData.instanceMatrix
    let tc := m.mulVec ⟨center.x, center.y, center.z, 1⟩
    let transformedCenter : Vec3 := ⟨tc.x, tc.y, tc.z⟩
    let transformedExtents : Vec3 :=
      ⟨|m.c0r0| * extents.x + |m.c1r0| * extents.y + |m.c2r0| * extents.z,
       |m.c0r1| * extents.x + |m.c1r1| * extents.y + |m.c2r1| * extents.z,
       |m.c0r2| * extents.x + |m.c1r2| * extents.y + |m.c2r2| * extents.z⟩
    let transformedMin : Vec3 :=
      ⟨transformedCenter.x - transformedExtents.x,
       transformedCenter.y - transformedExtents.y,
       transformedCenter.z - transformedExtents.z⟩
    let transformedMax : Vec3 :=
      ⟨transformedCenter.x + transformedExtents.x,
       transformedCenter.y + transformedExtents.y,
       transformedCenter.z + transformedExtents.z⟩
    .drawAABB3D transformedMin transformedMax 4278255615)

/-- `MapObjectRenderer::Update`: optionally draw debug boxes, then set
the surviving counters to the full totals, and only when culling is
enabled (and the readback buffer exists) overwrite them with last
frame's GPU readback (`readBack` models `Renderer::MapBuffer`, whose
returned pointer may be null). -/
def update (cullingEnabled drawBoundingBoxes : Bool)
    (readBack : Nat → Option Nat) (st : RendererState) :
    RendererState × List DebugCmd :=
  let dbg := if drawBoundingBoxes then debugBoundingBoxCmds st else []
  let numDrawCalls := st.drawParameters.length
  let st := { st with
    numSurvivingDrawCalls := numDrawCalls
    numSurvivingTriangles := st.numTriangles }
  if cullingEnabled && st.bufs.drawCountReadBackBuffer.isSome then
    let st :=
      match readBack (st.bufs.drawCountReadBackBuffer.getD 0) with
      | some count => { st with numSurvivingDrawCalls := count }
      | none => st
    let st :=
      match readBack (st.bufs.triangleCountReadBackBuffer.getD 0) with
      | some count => { st with numSurvivingTriangles := count }
      | none => st
    (st, dbg)
  else (st, dbg)

/-- The execute callback of the "MapObject Pass"
(`MapObjectRenderer::AddMapObjectPass`): zero pending draw calls returns
without recording anything; otherwise record either the culling branch
(counter resets, compute cull dispatch) or the culling-disabled branch
(counter pre-seeded to the full draw count), then the indirect draw and
the readback copies. -/
def addMapObjectPassExecute (cullingEnabled lockFrustum occlusionEnabled : Bool)
    (st : RendererState) : List GpuCmd :=
  let drawCount := st.drawParameters.length
  if drawCount = 0 then []
  else
    let drawCountB := st.bufs.drawCountBuffer.getD 0
    let triangleCountB := st.bufs.triangleCountBuffer.getD 0
    let argumentB := st.bufs.argumentBuffer.getD 0
    let culledArgumentB := st.bufs.culledArgumentBuffer.getD 0
    let cullPart : List GpuCmd :=
      if cullingEnabled then
        [.fillBuffer drawCountB 0 4 0,
         .fillBuffer triangleCountB 0 4 0,
         .pipelineBarrier drawCountB,
         .pipelineBarrier triangleCountB,
         .beginPipeline] ++
        (if ¬ lockFrustum then
          [.updateCullingConstants drawCount occlusionEnabled]
         else []) ++
        [.bindOther "culling._constants",
         .bindBuffer "culling._drawCommands" argumentB,
         .bindBuffer "culling._culledDrawCommands" culledArgumentB,
         .bindBuffer "culling._drawCount" drawCountB,
         .bindBuffer "culling._triangleCount" triangleCountB,
         .bindOther "culling._depthSampler",
         .bindOther "culling._depthPyramid",
         .bindDescriptorSet "PER_PASS",
         .bindDescriptorSet "GLOBAL",
         .dispatch ((drawCount + 31) / 32) 1 1,
         .endPipeline,
         .pipelineBarrier culledArgumentB,
         .pipelineBarrier drawCountB]
      else
        [.fillBuffer drawCountB 0 4 drawCount,
         .pipelineBarrier drawCountB]
    cullPart ++
      [.beginPipeline,
       .bindDescriptorSet "GLOBAL",
       .bindDescriptorSet "PER_PASS",
       .setIndexBuffer (st.bufs.indexBuffer.getD 0),
       .drawIndexedIndirectCount
         (if cullingEnabled then culledArgumentB else argumentB) drawCountB drawCount,
       .endPipeline,
       .pipelineBarrier drawCountB,
       .copyBuffer (st.bufs.drawCountReadBackBuffer.getD 0) 0 drawCountB 0 4,
       .pipelineBarrier (st.bufs.drawCountReadBackBuffer.getD 0),
       .pipelineBarrier triangleCountB,
       .copyBuffer (st.bufs.triangleCountReadBackBuffer.getD 0) 0 triangleCountB 0 4,
       .pipelineBarrier (st.bufs.triangleCountReadBackBuffer.getD 0)]

/-- A `BufferState` with every handle invalid, as on construction. -/
def BufferState.empty : BufferState where
  instanceLookupBuffer := none
  argumentBuffer := none
  culledArgumentBuffer := none
  drawCountBuffer := none
  triangleCountBuffer := none
  drawCountReadBackBuffer := none
  triangleCountReadBackBuffer := none
  vertexBuffer := none
  indexBuffer := none
  instanceBuffer := none
  materialBuffer := none
  materialParametersBuffer := none
  cullingDataBuffer := none
  nextBufferID := 0

/-- A freshly constructed renderer state (all arrays empty, all handles
invalid). -/
def RendererState.empty : RendererState where
  uniqueIdCounter := []
  mapObjectsToBeLoaded := []
  mapObjectPlacementDetails := []
  loadedMapObjects := []
  nameHashToIndexMap := []
  geo := { indices := [], vertices := [], materials := []
           materialParameters := [], cullingData := [] }
  drawParameters := []
  instances := []
  instanceLookupData := []
  numTriangles := 0
  numSurvivingDrawCalls := 0
  numSurvivingTriangles := 0
  bufs := BufferState.empty

/-- The keys (name hashes) of an association-list map. -/
def mapKeys (m : List (Nat × Nat)) : List Nat := m.map (·.1)

/-- How many hashes of a list are new relative to a set of already-seen
hashes, counting each distinct new hash once (the number of
`LoadedMapObject` entries a batch of placements creates). -/
def countNewHashes : List Nat → List Nat → Nat
  | _, [] => 0
  | seen, h :: t =>
    if h ∈ seen then countNewHashes seen t
    else countNewHashes (h :: seen) t + 1

/-- Spec-side sum "over placements of renderBatchCount(model_i)": for
each placement-details entry, the render-batch count of the loaded model
it resolved to. -/
def detailsBatchSum (loaded : List LoadedMapObject)
    (details : List PlacementDetails) : Nat :=
  (details.map (fun d =>
    (loaded.getD d.loadedIndex LoadedMapObject.empty).renderBatches.length)).sum

/-- The device- and staging-buffer IDs of a list of rebuild infos. -/
def infoIds (infos : List RebuildInfo) : List Nat :=
  infos.flatMap (fun i => [i.newBuffer, i.stagingBuffer])

/-- The new device buffer of a rebuilt kind is populated exclusively
through its transient staging buffer: the trace contains, in this order,
the creation of both buffers, the CPU map/write/unmap of the staging
buffer, the deferred-destruction enqueue of the staging buffer, and the
device-side copy from staging into the new buffer. -/
def stagedUploadVia (tr : List GpuCmd) (newB stagingB : Nat) : Prop :=
  ∃ name stagingName size,
    List.Sublist
      [GpuCmd.createBuffer name size newB,
       GpuCmd.createBuffer stagingName size stagingB,
       GpuCmd.mapBuffer stagingB,
       GpuCmd.writeMapped stagingB size,
       GpuCmd.unmapBuffer stagingB,
       GpuCmd.queueDestroyBuffer stagingB,
       GpuCmd.copyBuffer newB 0 stagingB 0 size] tr

/-- The old buffer is handed to the deferred-destruction queue strictly
before the replacement buffer is created. -/
def destroyBeforeCreate (tr : List GpuCmd) (oldB newB : Nat) : Prop :=
  ∃ name size,
    List.Sublist
      [GpuCmd.queueDestroyBuffer oldB, GpuCmd.createBuffer name size newB] tr

/-- Format constants used by the concrete witness scenarios (the real
values live outside the provided sources; the theorems are parametric in
them). -/
def testConsts : FormatConsts where
  rootToken := 10
  rootVersion := 3
  objToken := 20
  objVersion := 3

/-- A well-formed one-mesh `.nmor` root stream: header, zero materials,
one mesh. -/
def testRootBuf : Buffer := [.header 10 3, .word 0, .word 1]

/-- A well-formed `.nmo` mesh stream with one render batch: header,
flags, three indices, one vertex, no vertex-color sets, no triangle
data, one render batch, one culling box. -/
def testMeshBuf : Buffer :=
  [.header 20 3, .flags ⟨false, false⟩, .word 3, .indexBlock [0, 1, 2],
   .word 1, .vertexBlock [7], .word 0, .word 0, .word 1,
   .renderBatchBlock [⟨0, 0, 3⟩], .cullingBlock [⟨⟨0, 0, 0⟩, ⟨2, 4, 6⟩, 0⟩]]

/-- Concrete witness environment: a file system holding the valid asset
`a.nmor` with its single mesh `a_000.nmo`, and trivial texture/real
collaborators. -/
def testEnv : Env where
  file := fun p =>
    if p = "Data/extracted/MapObjects/a.nmor" then some testRootBuf
    else if p = "Data/extracted/MapObjects/a_000.nmo" then some testMeshBuf
    else none
  loadTexture := fun _ => 0
  createVertexColorTexture := fun _ => 0
  rcos := fun _ => 1
  rsin := fun _ => 0
  dist := fun _ _ => 3

/-- First witness placement referencing `a.nmor`. -/
def testItem1 : MapObjectToBeLoaded where
  placement := ⟨1, ⟨1, 2, 3⟩, ⟨0, 0, 0⟩, 0⟩
  nmorName := "a.nmor"
  nmorNameHash := 42

/-- Second witness placement referencing the same asset `a.nmor`. -/
def testItem2 : MapObjectToBeLoaded where
  placement := ⟨2, ⟨4, 5, 6⟩, ⟨0, 0, 0⟩, 0⟩
  nmorName := "a.nmor"
  nmorNameHash := 42

/-- Witness placement whose asset file is missing from `testEnv`. -/
def testItemMissing : MapObjectToBeLoaded where
  placement := ⟨3, ⟨0, 0, 0⟩, ⟨0, 0, 0⟩, 0⟩
  nmorName := "b.nmor"
  nmorNameHash := 77

/-- Witness state with two registered placements for the same asset. -/
def testState : RendererState :=
  { RendererState.empty with mapObjectsToBeLoaded := [testItem1, testItem2] }

/-- Witness state with one pending draw call (a non-empty scene). -/
def testDrawState : RendererState :=
  { RendererState.empty with
    drawParameters := [⟨3, 1, 0, 0, 0⟩]
    numTriangles := 1 }

/-- Witness state whose buffer handles are all valid (as after a previous
`CreateBuffers` call), for exercising the rebuild path. -/
def testBufState : RendererState :=
  { testDrawState with
    bufs := { instanceLookupBuffer := some 0, argumentBuffer := some 1
              culledArgumentBuffer := some 2, drawCountBuffer := some 3
              triangleCountBuffer := some 4, drawCountReadBackBuffer := some 5
              triangleCountReadBackBuffer := some 6, vertexBuffer := some 7
              indexBuffer := some 8, instanceBuffer := some 9
              materialBuffer := some 10, materialParametersBuffer := some 11
              cullingDataBuffer := some 12, nextBufferID := 13 } }

/-- The result of loading the witness asset from the witness environment
(used to name the loaded object and geometry in witness statements). -/
def testLoadResult :
    (Except LoadError LoadedMapObject) × GeometryStore :=
  loadMapObject testConsts testEnv testItem1
    { LoadedMapObject.empty with objectID := 0 } RendererState.empty.geo

/-- The loaded witness object. -/
def testLoadedObj : LoadedMapObject :=
  match testLoadResult.1 with
  | .ok o => o
  | .error _ => LoadedMapObject.empty

/-- The geometry store after loading the witness object. -/
def testLoadedGeo : GeometryStore := testLoadResult.2

/-- glm's fused `eulerAngleZYX` equals the product of the three
single-axis rotations applied in the order Z, then Y, then X. -/
theorem glmEulerAngleZYX_eq_mul (rcos rsin : ℚ → ℚ) (t1 t2 t3 : ℚ) :
    glmEulerAngleZYX rcos rsin t1 t2 t3 =
      (glmEulerAngleZ rcos rsin t1).mul
        ((glmEulerAngleY rcos rsin t2).mul (glmEulerAngleX rcos rsin t3)) := by
  simp only [glmEulerAngleZYX, glmEulerAngleZ, glmEulerAngleY, glmEulerAngleX,
    Mat4.mul, Mat4.mk.injEq]
  repeat' apply And.intro
  all_goals ring

/-- `Mat4.mul` is associative (so the instance-matrix claim can be read
in either grouping). -/
theorem Mat4.mul_assoc (a b c : Mat4) :
    (a.mul b).mul c = a.mul (b.mul c) := by
  simp only [Mat4.mul, Mat4.mk.injEq]
  repeat' apply And.intro
  all_goals ring

/-- The per-batch loop of `AddInstance` never touches the instance
array. -/
theorem addInstanceBatches_instances (instanceID : Nat) :
    ∀ (n i : Nat) (mapObject : LoadedMapObject) (st : RendererState),
      ((addInstanceBatches instanceID i n mapObject st).2).instances = st.instances := by
  intro n
  induction n with
  | zero => intro i mapObject st; rfl
  | succ n ih =>
    intro i mapObject st
    simp only [addInstanceBatches]
    rw [ih]

/-- Claim C6: for every placement, the appended instance's world
transform equals the translation by the placement position composed with
the rotations about Z, −Y and −X (in that order) built from the
placement's Euler angles converted from degrees to radians. -/
theorem C6_instance_transform (env : Env) (mapObject : LoadedMapObject)
    (placement : Placement) (st : RendererState) :
    ((addInstance env mapObject placement st).2).instances =
      st.instances ++
        [⟨(glmTranslate Mat4.identity placement.position).mul
            ((glmEulerAngleZ env.rcos env.rsin (glmRadians placement.rotation).z).mul
              ((glmEulerAngleY env.rcos env.rsin (-(glmRadians placement.rotation).y)).mul
                (glmEulerAngleX env.rcos env.rsin (-(glmRadians placement.rotation).x))))⟩] := by
  simp only [addInstance]
  rw [addInstanceBatches_instances]
  rw [glmEulerAngleZYX_eq_mul]

/-- Claim C6 witness: the transform of a concrete placement. -/
theorem C6_instance_transform_witness :
    ((addInstance testEnv LoadedMapObject.empty testItem1.placement
        RendererState.empty).2).instances =
      RendererState.empty.instances ++
        [⟨(glmTranslate Mat4.identity testItem1.placement.position).mul
            ((glmEulerAngleZ testEnv.rcos testEnv.rsin
                (glmRadians testItem1.placement.rotation).z).mul
              ((glmEulerAngleY testEnv.rcos testEnv.rsin
                  (-(glmRadians testItem1.placement.rotation).y)).mul
                (glmEulerAngleX testEnv.rcos testEnv.rsin
                  (-(glmRadians testItem1.placement.rotation).x))))⟩] :=
  C6_instance_transform testEnv LoadedMapObject.empty testItem1.placement
    RendererState.empty

/-- Claim C7: `ExecuteLoad` with zero pending placements is a no-op: the
state (all CPU arrays and all buffer handles) is unchanged, no GPU
command is recorded and no error is logged. -/
theorem C7_executeLoad_empty_noop (C : FormatConsts) (env : Env)
    (st : RendererState) (h : st.mapObjectsToBeLoaded = []) :
    executeLoad C env st = (st, [], []) := by
  simp [executeLoad, h]

/-- Claim C7 witness: a concrete state with no pending placements. -/
theorem C7_executeLoad_empty_noop_witness :
    RendererState.empty.mapObjectsToBeLoaded = [] ∧
      executeLoad testConsts testEnv RendererState.empty =
        (RendererState.empty, [], []) :=
  ⟨rfl, C7_executeLoad_empty_noop testConsts testEnv RendererState.empty rfl⟩

/-- Claim C8: with zero pending draw calls the map-object pass records
nothing into the command list: no counter reset, no cull dispatch, no
indirect draw, no readback copy. -/
theorem C8_zero_drawcalls_short_circuit
    (cullingEnabled lockFrustum occlusionEnabled : Bool) (st : RendererState)
    (h : st.drawParameters = []) :
    addMapObjectPassExecute cullingEnabled lockFrustum occlusionEnabled st = [] := by
  simp [addMapObjectPassExecute, h]

/-- Claim C8 witness: the empty scene records no commands. -/
theorem C8_zero_drawcalls_short_circuit_witness :
    RendererState.empty.drawParameters = [] ∧
      addMapObjectPassExecute true false true RendererState.empty = [] :=
  ⟨rfl, C8_zero_drawcalls_short_circuit true false true RendererState.empty rfl⟩

/-- Claim C3: with culling disabled, `Update` reports the full totals
(surviving draw calls = total draw calls, surviving triangles = total
triangles) instead of a stale readback, and for a non-empty scene the
pass seeds the GPU draw-count buffer with the full draw count. -/
theorem C3_culling_disabled_full_counts
    (drawBoundingBoxes lockFrustum occlusionEnabled : Bool)
    (readBack : Nat → Option Nat) (st : RendererState)
    (h : st.drawParameters ≠ []) :
    ((update false drawBoundingBoxes readBack st).1.numSurvivingDrawCalls =
        st.drawParameters.length ∧
      (update false drawBoundingBoxes readBack st).1.numSurvivingTriangles =
        st.numTriangles) ∧
    ∃ rest,
      addMapObjectPassExecute false lockFrustum occlusionEnabled st =
        GpuCmd.fillBuffer (st.bufs.drawCountBuffer.getD 0) 0 4
            st.drawParameters.length ::
          GpuCmd.pipelineBarrier (st.bufs.drawCountBuffer.getD 0) :: rest := by
  constructor
  · constructor
    · simp [update]
    · simp [update]
  · have hne : st.drawParameters.length ≠ 0 := by
      simpa [List.length_eq_zero] using h
    refine ⟨[.beginPipeline, .bindDescriptorSet "GLOBAL",
      .bindDescriptorSet "PER_PASS",
      .setIndexBuffer (st.bufs.indexBuffer.getD 0),
      .drawIndexedIndirectCount (st.bufs.argumentBuffer.getD 0)
        (st.bufs.drawCountBuffer.getD 0) st.drawParameters.length,
      .endPipeline, .pipelineBarrier (st.bufs.drawCountBuffer.getD 0),
      .copyBuffer (st.bufs.drawCountReadBackBuffer.getD 0) 0
        (st.bufs.drawCountBuffer.getD 0) 0 4,
      .pipelineBarrier (st.bufs.drawCountReadBackBuffer.getD 0),
      .pipelineBarrier (st.bufs.triangleCountBuffer.getD 0),
      .copyBuffer (st.bufs.triangleCountReadBackBuffer.getD 0) 0
        (st.bufs.triangleCountBuffer.getD 0) 0 4,
      .pipelineBarrier (st.bufs.triangleCountReadBackBuffer.getD 0)], ?_⟩
    simp [addMapObjectPassExecute, hne]

/-- Claim C3 witness: a concrete one-draw-call scene with culling
disabled. -/
theorem C3_culling_disabled_full_counts_witness :
    testDrawState.drawParameters ≠ [] ∧
      (((update false false (fun _ => none) testDrawState).1.numSurvivingDrawCalls =
            testDrawState.drawParameters.length ∧
          (update false false (fun _ => none) testDrawState).1.numSurvivingTriangles =
            testDrawState.numTriangles) ∧
        ∃ rest,
          addMapObjectPassExecute false false false testDrawState =
            GpuCmd.fillBuffer (testDrawState.bufs.drawCountBuffer.getD 0) 0 4
                testDrawState.drawParameters.length ::
              GpuCmd.pipelineBarrier (testDrawState.bufs.drawCountBuffer.getD 0) ::
                rest) :=
  ⟨by decide,
    C3_culling_disabled_full_counts false false false (fun _ => none)
      testDrawState (by decide)⟩

/-- Claim C4: a root or mesh file whose header version differs from the
expected constant fails with the "older — rerun dataextractor" error when
strictly smaller and the "newer — update your client" error when strictly
larger, leaving the rest of the file unconsumed; a placement whose root
file has such a header fails to load (and is hence skipped). -/
theorem C4_version_mismatch (C : FormatConsts) (env : Env) (v w : Nat)
    (rest rest2 : Buffer) (mapObject : LoadedMapObject) (g : GeometryStore)
    (hv : v ≠ C.rootVersion) (hw : w ≠ C.objVersion) :
    loadRootBuf C env (.header C.rootToken v :: rest) mapObject g =
        (.error (if v < C.rootVersion then .versionOlder else .versionNewer),
          rest, g) ∧
    loadMeshBuf C (.header C.objToken w :: rest2) mapObject g =
        (.error (if w < C.objVersion then .versionOlder else .versionNewer),
          rest2, mapObject, g) ∧
    ∀ (item : MapObjectToBeLoaded) (obj0 : LoadedMapObject) (g0 : GeometryStore),
      strEndsWith item.nmorName ".nmor" = true →
      env.file (mapObjectDir ++ item.nmorName) =
        some (.header C.rootToken v :: rest) →
      (loadMapObject C env item obj0 g0).1 =
        .error (if v < C.rootVersion then .versionOlder else .versionNewer) := by
  refine ⟨?_, ?_, ?_⟩
  · by_cases hlt : v < C.rootVersion <;>
      simp [loadRootBuf, getHeader, hv, hlt]
  · by_cases hlt : w < C.objVersion <;>
      simp [loadMeshBuf, getHeader, hw, hlt]
  · intro item obj0 g0 h1 h2
    by_cases hlt : v < C.rootVersion <;>
      simp [loadMapObject, h1, h2, loadRootBuf, getHeader, hv, hlt]

/-- Claim C4 witness: concrete older root file (version 2 < 3) and newer
mesh file (version 4 > 3). -/
theorem C4_version_mismatch_witness :
    ((2 : Nat) ≠ testConsts.rootVersion ∧ (4 : Nat) ≠ testConsts.objVersion) ∧
      (loadRootBuf testConsts testEnv
            (.header testConsts.rootToken 2 :: [.word 9]) LoadedMapObject.empty
            RendererState.empty.geo =
          (.error
              (if 2 < testConsts.rootVersion then .versionOlder
                else .versionNewer),
            [.word 9], RendererState.empty.geo) ∧
        loadMeshBuf testConsts (.header testConsts.objToken 4 :: [.word 8])
            LoadedMapObject.empty RendererState.empty.geo =
          (.error
              (if 4 < testConsts.objVersion then .versionOlder
                else .versionNewer),
            [.word 8], LoadedMapObject.empty, RendererState.empty.geo) ∧
        ∀ (item : MapObjectToBeLoaded) (obj0 : LoadedMapObject)
          (g0 : GeometryStore),
          strEndsWith item.nmorName ".nmor" = true →
          testEnv.file (mapObjectDir ++ item.nmorName) =
            some (.header testConsts.rootToken 2 :: [.word 9]) →
          (loadMapObject testConsts testEnv item obj0 g0).1 =
            .error
              (if 2 < testConsts.rootVersion then .versionOlder
                else .versionNewer)) :=
  ⟨⟨by decide, by decide⟩,
    C4_version_mismatch testConsts testEnv 2 4 [.word 9] [.word 8]
      LoadedMapObject.empty RendererState.empty.geo (by decide) (by decide)⟩

/-- Claim C5: a placement whose asset fails to load is skipped and the
loop continues with the remaining placements: the failing placement's
error is logged, its partially appended `LoadedMapObject` is removed,
and it contributes no instance and no placement-details entry (only the
shared geometry arrays keep their partial appends, as in the C++). -/
theorem C5_failed_placement_skipped (C : FormatConsts) (env : Env)
    (item : MapObjectToBeLoaded) (rest : List MapObjectToBeLoaded)
    (st : RendererState) (e : LoadError)
    (hnew : alookup st.nameHashToIndexMap item.nmorNameHash = none)
    (hfail : (loadMapObject C env item
        { LoadedMapObject.empty with objectID := st.loadedMapObjects.length }
        st.geo).1 = .error e) :
    executeLoadLoop C env (item :: rest) st =
        ((executeLoadLoop C env rest
            { st with geo := (loadMapObject C env item
                { LoadedMapObject.empty with
                    objectID := st.loadedMapObjects.length } st.geo).2 }).1,
          e :: (executeLoadLoop C env rest
            { st with geo := (loadMapObject C env item
                { LoadedMapObject.empty with
                    objectID := st.loadedMapObjects.length } st.geo).2 }).2) ∧
      ({ st with geo := (loadMapObject C env item
            { LoadedMapObject.empty with
                objectID := st.loadedMapObjects.length } st.geo).2 }
          : RendererState).loadedMapObjects = st.loadedMapObjects ∧
      ({ st with geo := (loadMapObject C env item
            { LoadedMapObject.empty with
                objectID := st.loadedMapObjects.length } st.geo).2 }
          : RendererState).instances = st.instances ∧
      ({ st with geo := (loadMapObject C env item
            { LoadedMapObject.empty with
                objectID := st.loadedMapObjects.length } st.geo).2 }
          : RendererState).mapObjectPlacementDetails =
        st.mapObjectPlacementDetails ∧
      ({ st with geo := (loadMapObject C env item
            { LoadedMapObject.empty with
                objectID := st.loadedMapObjects.length } st.geo).2 }
          : RendererState).nameHashToIndexMap = st.nameHashToIndexMap := by
  rcases hres : loadMapObject C env item
      { LoadedMapObject.empty with objectID := st.loadedMapObjects.length }
      st.geo with ⟨res1, g⟩
  rw [hres] at hfail
  simp only at hfail
  subst hfail
  refine ⟨?_, rfl, rfl, rfl, rfl⟩
  simp only [executeLoadLoop, processPlacement, hnew, hres]

/-- Claim C5 witness: a placement whose asset file is missing is skipped
(error logged, no entries added), with an empty remaining batch. -/
theorem C5_failed_placement_skipped_witness :
    (alookup RendererState.empty.nameHashToIndexMap
        testItemMissing.nmorNameHash = none ∧
      (loadMapObject testConsts testEnv testItemMissing
          { LoadedMapObject.empty with
              objectID := RendererState.empty.loadedMapObjects.length }
          RendererState.empty.geo).1 = .error .fileNotFound) ∧
      (executeLoadLoop testConsts testEnv ([testItemMissing] : List MapObjectToBeLoaded)
            RendererState.empty =
          ((executeLoadLoop testConsts testEnv []
              { RendererState.empty with
                  geo := (loadMapObject testConsts testEnv testItemMissing
                      { LoadedMapObject.empty with
                          objectID :=
                            RendererState.empty.loadedMapObjects.length }
                      RendererState.empty.geo).2 }).1,
            LoadError.fileNotFound ::
              (executeLoadLoop testConsts testEnv []
                { RendererState.empty with
                    geo := (loadMapObject testConsts testEnv testItemMissing
                        { LoadedMapObject.empty with
                            objectID :=
                              RendererState.empty.loadedMapObjects.length }
                        RendererState.empty.geo).2 }).2) ∧
        ({ RendererState.empty with
              geo := (loadMapObject testConsts testEnv testItemMissing
                  { LoadedMapObject.empty with
                      objectID := RendererState.empty.loadedMapObjects.length }
                  RendererState.empty.geo).2 }
            : RendererState).loadedMapObjects =
          RendererState.empty.loadedMapObjects ∧
        ({ RendererState.empty with
              geo := (loadMapObject testConsts testEnv testItemMissing
                  { LoadedMapObject.empty with
                      objectID := RendererState.empty.loadedMapObjects.length }
                  RendererState.empty.geo).2 }
            : RendererState).instances = RendererState.empty.instances ∧
        ({ RendererState.empty with
              geo := (loadMapObject testConsts testEnv testItemMissing
                  { LoadedMapObject.empty with
                      objectID := RendererState.empty.loadedMapObjects.length }
                  RendererState.empty.geo).2 }
            : RendererState).mapObjectPlacementDetails =
          RendererState.empty.mapObjectPlacementDetails ∧
        ({ RendererState.empty with
              geo := (loadMapObject testConsts testEnv testItemMissing
                  { LoadedMapObject.empty with
                      objectID := RendererState.empty.loadedMapObjects.length }
                  RendererState.empty.geo).2 }
            : RendererState).nameHashToIndexMap =
          RendererState.empty.nameHashToIndexMap) :=
  ⟨⟨rfl, rfl⟩,
    C5_failed_placement_skipped testConsts testEnv testItemMissing []
      RendererState.empty .fileNotFound rfl rfl⟩

/-- The material loop only appends materials: `_cullingData` is
untouched. -/

theorem loadMaterials_cullingData (env : Env) :
    ∀ (n : Nat) (buf : Buffer) (g : GeometryStore),
      ((loadMaterials env n buf g).2.2).cullingData = g.cullingData := by
  intro n
  induction n with
  | zero => intro buf g; rfl
  | succ n ih =>
    intro buf g
    simp only [loadMaterials]
    split
    · rfl
    · rw [ih]

/-- `LoadRoot` never touches `_cullingData`. -/

theorem loadRootBuf_cullingData (C : FormatConsts) (env : Env) (buf : Buffer)
    (mapObject : LoadedMapObject) (g : GeometryStore) :
    ((loadRootBuf C env buf mapObject g).2.2).cullingData = g.cullingData := by
  unfold loadRootBuf
  rcases hh : getHeader buf with _ | ⟨token, version, buf1⟩
  · rfl
  · dsimp only
    by_cases ht : token ≠ C.rootToken
    · simp only [if_pos ht]
    · simp only [if_neg ht]
      by_cases hv : version ≠ C.rootVersion
      · simp only [if_pos hv]
        split <;> rfl
      · simp only [if_neg hv]
        rcases hw : getWord buf1 with _ | ⟨numMaterials, buf2⟩
        · rfl
        · dsimp only
          rcases hm : loadMaterials env numMaterials buf2 g with ⟨ok, buf3, g3⟩
          have h3 : g3.cullingData = g.cullingData := by
            have hx := loadMaterials_cullingData env numMaterials buf2 g
            rw [hm] at hx
            exact hx
          cases ok
          · exact h3
          · dsimp only
            rcases getWord buf3 with _ | ⟨numMeshes, buf4⟩
            · exact h3
            · exact h3

/-- The vertex/index reader only appends indices and vertices:
`_cullingData` is untouched. -/

theorem loadIndicesAndVertices_cullingData (buf : Buffer) (mesh : Mesh)
    (mapObject : LoadedMapObject) (g : GeometryStore) :
    ((loadIndicesAndVertices buf mesh mapObject g).2.2.2.2).cullingData =
      g.cullingData := by
  unfold loadIndicesAndVertices
  repeat' split
  all_goals rfl

/-- The render-batch offset loop only appends material parameters:
`_cullingData` is untouched. -/

theorem addRenderBatchOffsets_cullingData (mesh : Mesh) :
    ∀ (bs : List RenderBatch) (mapObject : LoadedMapObject)
      (g : GeometryStore),
      ((addRenderBatchOffsets mesh bs mapObject g).2).cullingData =
        g.cullingData := by
  intro bs
  induction bs with
  | nil => intro mapObject g; rfl
  | cons b rest ih =>
    intro mapObject g
    simp only [addRenderBatchOffsets]
    rw [ih]

/-- `LoadRenderBatches` never touches `_cullingData` (the per-batch
culling boxes go into the map object, not the shared array). -/

theorem loadRenderBatches_cullingData (buf : Buffer) (mesh : Mesh)
    (mapObject : LoadedMapObject) (g : GeometryStore) :
    ((loadRenderBatches buf mesh mapObject g).2.2.2).cullingData =
      g.cullingData := by
  unfold loadRenderBatches
  rcases getWord buf with _ | ⟨numTriangleData, buf1⟩
  · rfl
  · dsimp only
    rcases skipTriangleBlock numTriangleData buf1 with _ | buf2
    · rfl
    · dsimp only
      rcases getWord buf2 with _ | ⟨numRenderBatches, buf3⟩
      · rfl
      · dsimp only
        rcases getRenderBatchBlock numRenderBatches buf3 with _ | ⟨bs, buf4⟩
        · rfl
        · dsimp only
          rcases hab : addRenderBatchOffsets mesh bs
              { mapObject with
                renderBatches := mapObject.renderBatches ++ bs } g with ⟨mo2, g2⟩
          have h2 : g2.cullingData = g.cullingData := by
            have hx := addRenderBatchOffsets_cullingData mesh bs
              { mapObject with
                renderBatches := mapObject.renderBatches ++ bs } g
            rw [hab] at hx
            exact hx
          rcases getCullingBlock numRenderBatches buf4 with _ | ⟨cs, buf5⟩
          · exact h2
          · exact h2

/-- `LoadMesh` never touches `_cullingData`. -/

theorem loadMeshBuf_cullingData (C : FormatConsts) (buf : Buffer)
    (mapObject : LoadedMapObject) (g : GeometryStore) :
    ((loadMeshBuf C buf mapObject g).2.2.2).cullingData = g.cullingData := by
  unfold loadMeshBuf
  rcases (getHeader buf).getD (0, 0, buf) with ⟨token, version, buf1⟩
  dsimp only
  by_cases ht : token ≠ C.objToken
  · simp only [if_pos ht]
  · simp only [if_neg ht]
    by_cases hv : version ≠ C.objVersion
    · simp only [if_pos hv]
      split <;> rfl
    · simp only [if_neg hv]
      rcases getFlags buf1 with _ | ⟨renderFlags, buf2⟩
      · rfl
      · dsimp only
        rcases hiv : loadIndicesAndVertices buf2
            { renderFlags := renderFlags, baseIndexOffset := 0
              baseVertexOffset := 0, baseVertexColor1Offset := 0
              baseVertexColor2Offset := 0 } mapObject g with
          ⟨ok, buf3, mesh3, mo3, g3⟩
        have h3 : g3.cullingData = g.cullingData := by
          have hx := loadIndicesAndVertices_cullingData buf2
            { renderFlags := renderFlags, baseIndexOffset := 0
              baseVertexOffset := 0, baseVertexColor1Offset := 0
              baseVertexColor2Offset := 0 } mapObject g
          rw [hiv] at hx
          exact hx
        cases ok
        · exact h3
        · dsimp only
          rcases hrb : loadRenderBatches buf3 mesh3 mo3 g3 with
            ⟨ok2, buf4, mo4, g4⟩
          have h4 : g4.cullingData = g3.cullingData := by
            have hx := loadRenderBatches_cullingData buf3 mesh3 mo3 g3
            rw [hrb] at hx
            exact hx
          cases ok2
          · exact h4.trans h3
          · exact h4.trans h3

/-- The mesh loop never touches `_cullingData`. -/

theorem loadMeshes_cullingData (C : FormatConsts) (env : Env)
    (nameNoExt : String) :
    ∀ (n i : Nat) (mapObject : LoadedMapObject) (g : GeometryStore),
      ((loadMeshes C env nameNoExt i n mapObject g).2.2).cullingData =
        g.cullingData := by
  intro n
  induction n with
  | zero => intro i mapObject g; rfl
  | succ n ih =>
    intro i mapObject g
    simp only [loadMeshes]
    rcases env.file (mapObjectDir ++ nameNoExt ++ "_" ++ pad3 i ++ ".nmo") with
      _ | buf
    · rfl
    · dsimp only
      rcases hmb : loadMeshBuf C buf mapObject g with ⟨res, buf1, mo1, g1⟩
      have h1 : g1.cullingData = g.cullingData := by
        have hx := loadMeshBuf_cullingData C buf mapObject g
        rw [hmb] at hx
        exact hx
      cases res
      · exact h1
      · rw [ih]
        exact h1

/-- The vertex-color-texture step never changes the map object's
per-batch culling boxes. -/

theorem createVertexColorTextures_cullingData (env : Env)
    (mapObject : LoadedMapObject) :
    (createVertexColorTextures env mapObject).cullingData =
      mapObject.cullingData := by
  unfold createVertexColorTextures
  split <;> (dsimp only; split <;> rfl)

/-- The C++ strict-comparison update is the binary minimum. -/

theorem if_lt_eq_min (a b : ℚ) : (if b < a then b else a) = min a b := by
  rcases lt_or_ge b a with h | h
  · rw [if_pos h, min_eq_right h.le]
  · rw [if_neg (not_lt.mpr h), min_eq_left h]

/-- The C++ strict-comparison update is the binary maximum. -/

theorem if_gt_eq_max (a b : ℚ) : (if b > a then b else a) = max a b := by
  rcases lt_or_ge a b with h | h
  · rw [if_pos h, max_eq_right h.le]
  · rw [if_neg (not_lt.mpr h), max_eq_left h]

/-- One step of the culling fold takes componentwise min/max. -/

theorem foldCullingStep_spec (acc cd : CullingData) :
    (foldCullingStep acc cd).minBoundingBox.x =
        min acc.minBoundingBox.x cd.minBoundingBox.x ∧
      (foldCullingStep acc cd).minBoundingBox.y =
        min acc.minBoundingBox.y cd.minBoundingBox.y ∧
      (foldCullingStep acc cd).minBoundingBox.z =
        min acc.minBoundingBox.z cd.minBoundingBox.z ∧
      (foldCullingStep acc cd).maxBoundingBox.x =
        max acc.maxBoundingBox.x cd.maxBoundingBox.x ∧
      (foldCullingStep acc cd).maxBoundingBox.y =
        max acc.maxBoundingBox.y cd.maxBoundingBox.y ∧
      (foldCullingStep acc cd).maxBoundingBox.z =
        max acc.maxBoundingBox.z cd.maxBoundingBox.z := by
  refine ⟨?_, ?_, ?_, ?_, ?_, ?_⟩ <;>
    simp only [foldCullingStep] <;>
    first
      | exact if_lt_eq_min _ _
      | exact if_gt_eq_max _ _

/-- The whole culling fold computes, in each component, the fold of
min (resp. max) over the per-batch corners. -/

theorem foldCulling_spec :
    ∀ (boxes : List CullingData) (acc : CullingData),
      (boxes.foldl foldCullingStep acc).minBoundingBox.x =
          (boxes.map (·.minBoundingBox.x)).foldl min acc.minBoundingBox.x ∧
        (boxes.foldl foldCullingStep acc).minBoundingBox.y =
          (boxes.map (·.minBoundingBox.y)).foldl min acc.minBoundingBox.y ∧
        (boxes.foldl foldCullingStep acc).minBoundingBox.z =
          (boxes.map (·.minBoundingBox.z)).foldl min acc.minBoundingBox.z ∧
        (boxes.foldl foldCullingStep acc).maxBoundingBox.x =
          (boxes.map (·.maxBoundingBox.x)).foldl max acc.maxBoundingBox.x ∧
        (boxes.foldl foldCullingStep acc).maxBoundingBox.y =
          (boxes.map (·.maxBoundingBox.y)).foldl max acc.maxBoundingBox.y ∧
        (boxes.foldl foldCullingStep acc).maxBoundingBox.z =
          (boxes.map (·.maxBoundingBox.z)).foldl max acc.maxBoundingBox.z := by
  intro boxes
  induction boxes with
  | nil => intro acc; exact ⟨rfl, rfl, rfl, rfl, rfl, rfl⟩
  | cons b rest ih =>
    intro acc
    have hs := foldCullingStep_spec acc b
    have hr := ih (foldCullingStep acc b)
    simp only [List.foldl_cons, List.map_cons]
    exact ⟨by rw [hr.1, hs.1], by rw [hr.2.1, hs.2.1],
      by rw [hr.2.2.1, hs.2.2.1], by rw [hr.2.2.2.1, hs.2.2.2.1],
      by rw [hr.2.2.2.2.1, hs.2.2.2.2.1], by rw [hr.2.2.2.2.2, hs.2.2.2.2.2]⟩

/-- Claim C10: a successful `LoadMapObject` appends exactly one aggregate
`CullingData` entry to `_cullingData`; its min corner is the
componentwise minimum and its max corner the componentwise maximum over
the model's per-render-batch culling boxes (folded from a
default-constructed entry), and its bounding-sphere radius is half the
distance between the resulting corners. -/
theorem C10_aggregate_culling (C : FormatConsts) (env : Env)
    (item : MapObjectToBeLoaded) (mapObject0 obj : LoadedMapObject)
    (g g1 : GeometryStore)
    (h : loadMapObject C env item mapObject0 g = (.ok obj, g1)) :
    g1.cullingData =
        g.cullingData ++ [aggregateCullingData env.dist obj.cullingData] ∧
      (aggregateCullingData env.dist obj.cullingData).minBoundingBox.x =
        (obj.cullingData.map (·.minBoundingBox.x)).foldl min
          CullingData.default.minBoundingBox.x ∧
      (aggregateCullingData env.dist obj.cullingData).minBoundingBox.y =
        (obj.cullingData.map (·.minBoundingBox.y)).foldl min
          CullingData.default.minBoundingBox.y ∧
      (aggregateCullingData env.dist obj.cullingData).minBoundingBox.z =
        (obj.cullingData.map (·.minBoundingBox.z)).foldl min
          CullingData.default.minBoundingBox.z ∧
      (aggregateCullingData env.dist obj.cullingData).maxBoundingBox.x =
        (obj.cullingData.map (·.maxBoundingBox.x)).foldl max
          CullingData.default.maxBoundingBox.x ∧
      (aggregateCullingData env.dist obj.cullingData).maxBoundingBox.y =
        (obj.cullingData.map (·.maxBoundingBox.y)).foldl max
          CullingData.default.maxBoundingBox.y ∧
      (aggregateCullingData env.dist obj.cullingData).maxBoundingBox.z =
        (obj.cullingData.map (·.maxBoundingBox.z)).foldl max
          CullingData.default.maxBoundingBox.z ∧
      (aggregateCullingData env.dist obj.cullingData).boundingSphereRadius =
        env.dist
          (aggregateCullingData env.dist obj.cullingData).minBoundingBox
          (aggregateCullingData env.dist obj.cullingData).maxBoundingBox / 2 := by
  have hmain : g1.cullingData =
      g.cullingData ++ [aggregateCullingData env.dist obj.cullingData] := by
      unfold loadMapObject at h
      split at h
      · exact absurd h (by simp)
      · dsimp only at h
        rcases hf : env.file (mapObjectDir ++ item.nmorName) with _ | buf
        · rw [hf] at h
          exact absurd h (by simp)
        · rw [hf] at h
          dsimp only at h
          rcases hr : loadRootBuf C env buf
              { mapObject0 with debugName := item.nmorName } g with ⟨res, buf1, g2⟩
          rw [hr] at h
          have h2 : g2.cullingData = g.cullingData := by
            have hx := loadRootBuf_cullingData C env buf
              { mapObject0 with debugName := item.nmorName } g
            rw [hr] at hx
            exact hx
          rcases res with e | ⟨meshRoot, mo1⟩
          · exact absurd h (by simp)
          · dsimp only at h
            rcases hm : (loadMeshes C env (strDropRight item.nmorName 5) 0
                meshRoot.numMeshes
                { mo1 with
                  baseVertexOffset := g2.vertices.length,
                  baseCullingDataOffset := g2.cullingData.length } g2) with
              ⟨res2, mo2, g3⟩
            rw [hm] at h
            have h3 : g3.cullingData = g2.cullingData := by
              have hx := loadMeshes_cullingData C env
                (strDropRight item.nmorName 5) meshRoot.numMeshes 0
                { mo1 with
                  baseVertexOffset := g2.vertices.length,
                  baseCullingDataOffset := g2.cullingData.length } g2
              rw [hm] at hx
              exact hx
            rcases res2 with e | u
            · exact absurd h (by simp)
            · dsimp only at h
              simp only [Prod.mk.injEq, Except.ok.injEq] at h
              rcases h with ⟨hobj, hg1⟩
              rw [← hg1]
              dsimp only
              rw [h3, h2, ← hobj, createVertexColorTextures_cullingData]
  have hf := foldCulling_spec obj.cullingData CullingData.default
  refine ⟨hmain, ?_, ?_, ?_, ?_, ?_, ?_, ?_⟩ <;>
    simp only [aggregateCullingData] <;>
    first
      | exact hf.1
      | exact hf.2.1
      | exact hf.2.2.1
      | exact hf.2.2.2.1
      | exact hf.2.2.2.2.1
      | exact hf.2.2.2.2.2
      | rfl

/-- Claim C10 witness: the concrete loaded witness asset. -/
theorem C10_aggregate_culling_witness :
    loadMapObject testConsts testEnv testItem1
        { LoadedMapObject.empty with objectID := 0 }
        RendererState.empty.geo = (.ok testLoadedObj, testLoadedGeo) ∧
      testLoadedGeo.cullingData =
        RendererState.empty.geo.cullingData ++
          [aggregateCullingData testEnv.dist testLoadedObj.cullingData] :=
  ⟨rfl,
    (C10_aggregate_culling testConsts testEnv testItem1
        { LoadedMapObject.empty with objectID := 0 } testLoadedObj
        RendererState.empty.geo testLoadedGeo rfl).1⟩

theorem alookup_none_not_mem {m : List (Nat × Nat)} {k : Nat}
    (h : alookup m k = none) : k ∉ mapKeys m := by
  simp only [alookup, Option.map_eq_none', List.find?_eq_none] at h
  simp only [mapKeys, List.mem_map]
  rintro ⟨p, hp, hk⟩
  exact h p hp (by simp [hk])

theorem alookup_some_mem {m : List (Nat × Nat)} {k v : Nat}
    (h : alookup m k = some v) : (k, v) ∈ m := by
  simp only [alookup, Option.map_eq_some'] at h
  rcases h with ⟨p, hp, hv⟩
  have h1 := List.find?_some hp
  have h2 := List.mem_of_find?_eq_some hp
  have h3 : p.1 = k := by simpa using h1
  have : p = (k, v) := by
    cases p
    simp only [Prod.mk.injEq]
    exact ⟨h3, hv⟩
  rwa [this] at h2

theorem addInstanceBatches_fields (instanceID : Nat) :
    ∀ (n i : Nat) (mapObject : LoadedMapObject) (st : RendererState),
      (addInstanceBatches instanceID i n mapObject st).2.drawParameters.length =
          st.drawParameters.length + n ∧
        (addInstanceBatches instanceID i n mapObject st).2.instanceLookupData.length =
          st.instanceLookupData.length + n ∧
        (addInstanceBatches instanceID i n mapObject st).2.instances =
          st.instances ∧
        (addInstanceBatches instanceID i n mapObject st).2.mapObjectPlacementDetails =
          st.mapObjectPlacementDetails ∧
        (addInstanceBatches instanceID i n mapObject st).2.loadedMapObjects =
          st.loadedMapObjects ∧
        (addInstanceBatches instanceID i n mapObject st).2.nameHashToIndexMap =
          st.nameHashToIndexMap ∧
        (addInstanceBatches instanceID i n mapObject st).2.geo = st.geo ∧
        (addInstanceBatches instanceID i n mapObject st).1.renderBatches =
          mapObject.renderBatches := by
  intro n
  induction n with
  | zero =>
    intro i mapObject st
    exact ⟨rfl, rfl, rfl, rfl, rfl, rfl, rfl, rfl⟩
  | succ n ih =>
    intro i mapObject st
    simp only [addInstanceBatches]
    rcases ih (i + 1)
        { mapObject with
          drawParameterIDs :=
            mapObject.drawParameterIDs ++ [st.drawParameters.length] }
        _ with ⟨h1, h2, h3, h4, h5, h6, h7, h8⟩
    refine ⟨?_, ?_, h3, h4, h5, h6, h7, by simpa using h8⟩
    · rw [h1]; simp; omega
    · rw [h2]; simp; omega

theorem addInstance_fields (env : Env) (mapObject : LoadedMapObject)
    (placement : Placement) (st : RendererState) :
    (addInstance env mapObject placement st).2.drawParameters.length =
        st.drawParameters.length + mapObject.renderBatches.length ∧
      (addInstance env mapObject placement st).2.instanceLookupData.length =
        st.instanceLookupData.length + mapObject.renderBatches.length ∧
      (addInstance env mapObject placement st).2.instances.length =
        st.instances.length + 1 ∧
      (addInstance env mapObject placement st).2.mapObjectPlacementDetails =
        st.mapObjectPlacementDetails ∧
      (addInstance env mapObject placement st).2.loadedMapObjects =
        st.loadedMapObjects ∧
      (addInstance env mapObject placement st).2.nameHashToIndexMap =
        st.nameHashToIndexMap ∧
      (addInstance env mapObject placement st).2.geo = st.geo ∧
      (addInstance env mapObject placement st).1.renderBatches =
        mapObject.renderBatches := by
  simp only [addInstance]
  rcases addInstanceBatches_fields st.instances.length
      mapObject.renderBatches.length 0
      { mapObject with
        instanceIDs := mapObject.instanceIDs ++ [st.instances.length] }
      _ with ⟨h1, h2, h3, h4, h5, h6, h7, h8⟩
  refine ⟨by simpa using h1, by simpa using h2, ?_, by simpa using h4,
    by simpa using h5, by simpa using h6, by simpa using h7, by simpa using h8⟩
  rw [h3]
  simp

theorem finishPlacement_fields (env : Env) (item : MapObjectToBeLoaded)
    (id : Nat) (st : RendererState) :
    (finishPlacement env item id st).mapObjectPlacementDetails =
        st.mapObjectPlacementDetails ++
          [{ loadedIndex := id, instanceIndex := st.instances.length }] ∧
      (finishPlacement env item id st).instances.length =
        st.instances.length + 1 ∧
      (finishPlacement env item id st).drawParameters.length =
        st.drawParameters.length +
          (st.loadedMapObjects.getD id LoadedMapObject.empty).renderBatches.length ∧
      (finishPlacement env item id st).instanceLookupData.length =
        st.instanceLookupData.length +
          (st.loadedMapObjects.getD id LoadedMapObject.empty).renderBatches.length ∧
      (finishPlacement env item id st).nameHashToIndexMap =
        st.nameHashToIndexMap ∧
      (finishPlacement env item id st).geo = st.geo ∧
      ∃ obj2,
        (finishPlacement env item id st).loadedMapObjects =
            st.loadedMapObjects.set id obj2 ∧
          obj2.renderBatches =
            (st.loadedMapObjects.getD id LoadedMapObject.empty).renderBatches := by
  simp only [finishPlacement]
  rcases addInstance_fields env
      (st.loadedMapObjects.getD id LoadedMapObject.empty) item.placement
      { st with
        mapObjectPlacementDetails := st.mapObjectPlacementDetails ++
          [{ loadedIndex := id, instanceIndex := st.instances.length }] } with
    ⟨h1, h2, h3, h4, h5, h6, h7, h8⟩
  refine ⟨by rw [h4], by simpa using h3, by simpa using h1, by simpa using h2,
    by simpa using h6, by simpa using h7, _, by rw [h5], h8⟩

theorem getD_set_renderBatches (l : List LoadedMapObject) (id : Nat)
    (obj2 : LoadedMapObject)
    (hrb : obj2.renderBatches =
      (l.getD id LoadedMapObject.empty).renderBatches) (i : Nat) :
    (((l.set id obj2).getD i LoadedMapObject.empty)).renderBatches =
      ((l.getD i LoadedMapObject.empty)).renderBatches := by
  by_cases hid : id = i
  · subst hid
    by_cases hlt : id < l.length
    · rw [List.getD_eq_getElem?_getD, List.getElem?_set, if_pos rfl, if_pos hlt]
      simp only [Option.getD_some]
      rw [hrb]
    · rw [List.set_eq_of_length_le (by omega)]
  · rw [List.getD_eq_getElem?_getD, List.getElem?_set, if_neg hid,
      ← List.getD_eq_getElem?_getD]



theorem executeLoadLoop_cons_dup (C : FormatConsts) (env : Env)
    (item : MapObjectToBeLoaded) (rest : List MapObjectToBeLoaded)
    (st : RendererState) (id : Nat)
    (hl : alookup st.nameHashToIndexMap item.nmorNameHash = some id) :
    executeLoadLoop C env (item :: rest) st =
      executeLoadLoop C env rest (finishPlacement env item id st) := by
  simp only [executeLoadLoop, processPlacement, hl]

theorem executeLoadLoop_cons_ok (C : FormatConsts) (env : Env)
    (item : MapObjectToBeLoaded) (rest : List MapObjectToBeLoaded)
    (st : RendererState) (obj : LoadedMapObject) (g : GeometryStore)
    (hl : alookup st.nameHashToIndexMap item.nmorNameHash = none)
    (hres : loadMapObject C env item
        { LoadedMapObject.empty with objectID := st.loadedMapObjects.length }
        st.geo = (.ok obj, g)) :
    executeLoadLoop C env (item :: rest) st =
      executeLoadLoop C env rest
        (finishPlacement env item st.loadedMapObjects.length
          { st with
            geo := g
            loadedMapObjects := st.loadedMapObjects ++ [obj]
            nameHashToIndexMap :=
              (item.nmorNameHash, st.loadedMapObjects.length) ::
                st.nameHashToIndexMap }) := by
  simp only [executeLoadLoop, processPlacement, hl, hres]

theorem executeLoadLoop_cons_fail (C : FormatConsts) (env : Env)
    (item : MapObjectToBeLoaded) (rest : List MapObjectToBeLoaded)
    (st : RendererState) (e : LoadError) (g : GeometryStore)
    (hl : alookup st.nameHashToIndexMap item.nmorNameHash = none)
    (hres : loadMapObject C env item
        { LoadedMapObject.empty with objectID := st.loadedMapObjects.length }
        st.geo = (.error e, g)) :
    executeLoadLoop C env (item :: rest) st =
      ((executeLoadLoop C env rest { st with geo := g }).1,
        e :: (executeLoadLoop C env rest { st with geo := g }).2) := by
  simp only [executeLoadLoop, processPlacement, hl, hres]

theorem executeLoadLoop_stable (C : FormatConsts) (env : Env) :
    ∀ (items : List MapObjectToBeLoaded) (st : RendererState),
      st.loadedMapObjects.length ≤
          (executeLoadLoop C env items st).1.loadedMapObjects.length ∧
        ∀ i, i < st.loadedMapObjects.length →
          (((executeLoadLoop C env items st).1.loadedMapObjects.getD i
              LoadedMapObject.empty)).renderBatches =
            ((st.loadedMapObjects.getD i LoadedMapObject.empty)).renderBatches := by
  intro items
  induction items with
  | nil => intro st; exact ⟨le_rfl, fun i _ => rfl⟩
  | cons item rest ih =>
    intro st
    rcases hl : alookup st.nameHashToIndexMap item.nmorNameHash with _ | id
    · rcases hres : loadMapObject C env item
          { LoadedMapObject.empty with objectID := st.loadedMapObjects.length }
          st.geo with ⟨res, g⟩
      rcases res with e | obj
      · rw [executeLoadLoop_cons_fail C env item rest st e g hl hres]
        exact ih { st with geo := g }
      · rw [executeLoadLoop_cons_ok C env item rest st obj g hl hres]
        set stMid : RendererState :=
          { st with
            geo := g
            loadedMapObjects := st.loadedMapObjects ++ [obj]
            nameHashToIndexMap :=
              (item.nmorNameHash, st.loadedMapObjects.length) ::
                st.nameHashToIndexMap } with hstMid
        rcases (finishPlacement_fields env item st.loadedMapObjects.length
            stMid).2.2.2.2.2.2 with ⟨obj2, hset, hrb⟩
        rcases ih (finishPlacement env item st.loadedMapObjects.length stMid) with
          ⟨hle, hst⟩
        constructor
        · refine le_trans ?_ hle
          rw [hset]
          simp [hstMid, List.length_set]
        · intro i hi
          have hi2 : i < (finishPlacement env item st.loadedMapObjects.length
              stMid).loadedMapObjects.length := by
            rw [hset]
            simp only [List.length_set, hstMid]
            simp
            omega
          rw [hst i hi2, hset]
          have hx := getD_set_renderBatches stMid.loadedMapObjects
            st.loadedMapObjects.length obj2 (by rw [hrb]) i
          rw [hx]
          simp only [hstMid]
          rw [List.getD_eq_getElem?_getD, List.getElem?_append, if_pos hi,
            ← List.getD_eq_getElem?_getD]
    · rw [executeLoadLoop_cons_dup C env item rest st id hl]
      rcases (finishPlacement_fields env item id st).2.2.2.2.2.2 with
        ⟨obj2, hset, hrb⟩
      rcases ih (finishPlacement env item id st) with ⟨hle, hst⟩
      constructor
      · refine le_trans ?_ hle
        rw [hset, List.length_set]
      · intro i hi
        have hi2 : i < (finishPlacement env item id st).loadedMapObjects.length := by
          rw [hset, List.length_set]
          exact hi
        rw [hst i hi2, hset]
        exact getD_set_renderBatches st.loadedMapObjects id obj2 hrb i



theorem countNewHashes_card :
    ∀ (l seen : List Nat),
      countNewHashes seen l = (l.toFinset \ seen.toFinset).card := by
  intro l
  induction l with
  | nil => intro seen; simp [countNewHashes]
  | cons h t ih =>
    intro seen
    simp only [countNewHashes, List.toFinset_cons]
    by_cases hm : h ∈ seen
    · rw [if_pos hm, ih seen,
        Finset.insert_sdiff_of_mem _ (List.mem_toFinset.mpr hm)]
    · rw [if_neg hm, ih (h :: seen)]
      rw [List.toFinset_cons, Finset.sdiff_insert]
      by_cases hx : h ∈ t.toFinset \ seen.toFinset
      · rw [Finset.insert_sdiff_of_not_mem _ (by simpa using hm),
          Finset.insert_eq_self.mpr hx]
        exact Finset.card_erase_add_one hx
      · rw [Finset.insert_sdiff_of_not_mem _ (by simpa using hm),
          Finset.card_insert_of_not_mem hx,
          Finset.erase_eq_of_not_mem hx]

theorem countNewHashes_nil_eq_dedup (l : List Nat) :
    countNewHashes [] l = l.dedup.length := by
  rw [countNewHashes_card l []]
  simp [List.card_toFinset]

theorem detailsBatchSum_cons (loaded : List LoadedMapObject)
    (d : PlacementDetails) (nd : List PlacementDetails) :
    detailsBatchSum loaded (d :: nd) =
      (loaded.getD d.loadedIndex LoadedMapObject.empty).renderBatches.length +
        detailsBatchSum loaded nd := by
  simp [detailsBatchSum]

theorem executeLoadLoop_master (C : FormatConsts) (env : Env) :
    ∀ (items : List MapObjectToBeLoaded) (st : RendererState),
      (∀ p ∈ st.nameHashToIndexMap, p.2 < st.loadedMapObjects.length) →
      (executeLoadLoop C env items st).2 = [] →
      ∃ newDetails : List PlacementDetails,
        (executeLoadLoop C env items st).1.mapObjectPlacementDetails =
            st.mapObjectPlacementDetails ++ newDetails ∧
          newDetails.length = items.length ∧
          (executeLoadLoop C env items st).1.instances.length =
            st.instances.length + items.length ∧
          (executeLoadLoop C env items st).1.drawParameters.length =
            st.drawParameters.length +
              detailsBatchSum (executeLoadLoop C env items st).1.loadedMapObjects
                newDetails ∧
          (executeLoadLoop C env items st).1.instanceLookupData.length =
            st.instanceLookupData.length +
              detailsBatchSum (executeLoadLoop C env items st).1.loadedMapObjects
                newDetails ∧
          (executeLoadLoop C env items st).1.loadedMapObjects.length =
            st.loadedMapObjects.length +
              countNewHashes (mapKeys st.nameHashToIndexMap)
                (items.map (·.nmorNameHash)) ∧
          (mapKeys (executeLoadLoop C env items st).1.nameHashToIndexMap).toFinset =
            (items.map (·.nmorNameHash)).toFinset ∪
              (mapKeys st.nameHashToIndexMap).toFinset := by
  intro items
  induction items with
  | nil =>
    intro st _ _
    exact ⟨[], by simp [executeLoadLoop], rfl, rfl,
      by simp [executeLoadLoop, detailsBatchSum],
      by simp [executeLoadLoop, detailsBatchSum],
      by simp [executeLoadLoop, countNewHashes],
      by simp [executeLoadLoop]⟩
  | cons item rest ih =>
    intro st hMV herr
    rcases hl : alookup st.nameHashToIndexMap item.nmorNameHash with _ | id
    · -- hash not seen yet
      rcases hres : loadMapObject C env item
          { LoadedMapObject.empty with objectID := st.loadedMapObjects.length }
          st.geo with ⟨res, g⟩
      rcases res with e | obj
      · rw [executeLoadLoop_cons_fail C env item rest st e g hl hres] at herr
        simp at herr
      · rw [executeLoadLoop_cons_ok C env item rest st obj g hl hres] at herr ⊢
        set stMid : RendererState :=
          { st with
            geo := g
            loadedMapObjects := st.loadedMapObjects ++ [obj]
            nameHashToIndexMap :=
              (item.nmorNameHash, st.loadedMapObjects.length) ::
                st.nameHashToIndexMap } with hstMid
        set N := st.loadedMapObjects.length with hN
        rcases finishPlacement_fields env item N stMid with
          ⟨hdet, hinst, hdp, hild, hmap, hgeo, obj2, hset, hrb⟩
        have hMV2 : ∀ p ∈ (finishPlacement env item N stMid).nameHashToIndexMap,
            p.2 < (finishPlacement env item N stMid).loadedMapObjects.length := by
          rw [hmap, hset, List.length_set]
          intro p hp
          simp only [hstMid, List.mem_cons] at hp
          rcases hp with hp | hp
          · subst hp
            dsimp only
            simp only [hstMid, List.length_append, List.length_cons,
              List.length_nil]
            omega
          · have := hMV p hp
            simp only [hstMid, List.length_append, List.length_cons,
              List.length_nil]
            omega
        rcases ih (finishPlacement env item N stMid) hMV2 herr with
          ⟨nd, ihdet, ihlen, ihinst, ihdp, ihild, ihloaded, ihkeys⟩
        have hk : ((executeLoadLoop C env rest
            (finishPlacement env item N stMid)).1.loadedMapObjects.getD N
              LoadedMapObject.empty).renderBatches =
            (stMid.loadedMapObjects.getD N LoadedMapObject.empty).renderBatches := by
          have hstab := (executeLoadLoop_stable C env rest
            (finishPlacement env item N stMid)).2 N (by
              rw [hset, List.length_set]
              simp only [hstMid, List.length_append, List.length_cons,
                List.length_nil]
              omega)
          rw [hstab, hset]
          exact getD_set_renderBatches stMid.loadedMapObjects N obj2 hrb N
        have hk2 := congrArg List.length hk
        refine ⟨{ loadedIndex := N, instanceIndex := stMid.instances.length } :: nd,
          ?_, by simp [ihlen], ?_, ?_, ?_, ?_, ?_⟩
        · rw [ihdet, hdet]
          simp [hstMid]
        · simp only [List.length_cons]
          have hi2 : stMid.instances.length = st.instances.length := by
            simp [hstMid]
          omega
        · rw [detailsBatchSum_cons]
          dsimp only
          have hdpm : stMid.drawParameters.length = st.drawParameters.length := by
            simp [hstMid]
          omega
        · rw [detailsBatchSum_cons]
          dsimp only
          have hilm : stMid.instanceLookupData.length =
              st.instanceLookupData.length := by
            simp [hstMid]
          omega
        · have hnotmem : item.nmorNameHash ∉ mapKeys st.nameHashToIndexMap :=
            alookup_none_not_mem hl
          simp only [List.map_cons, countNewHashes, if_neg hnotmem]
          have hkeys2 : mapKeys (finishPlacement env item N stMid).nameHashToIndexMap =
              item.nmorNameHash :: mapKeys st.nameHashToIndexMap := by
            rw [hmap]
            simp [hstMid, mapKeys]
          rw [hkeys2] at ihloaded
          have hlm : (finishPlacement env item N stMid).loadedMapObjects.length =
              st.loadedMapObjects.length + 1 := by
            rw [hset, List.length_set]
            simp [hstMid]
          omega
        · rw [ihkeys, hmap]
          have hkeys2 : mapKeys stMid.nameHashToIndexMap =
              item.nmorNameHash :: mapKeys st.nameHashToIndexMap := by
            simp [hstMid, mapKeys]
          rw [hkeys2]
          simp only [List.map_cons, List.toFinset_cons, Finset.insert_union,
            Finset.union_insert]
    · -- duplicate hash
      rw [executeLoadLoop_cons_dup C env item rest st id hl] at herr ⊢
      rcases finishPlacement_fields env item id st with
        ⟨hdet, hinst, hdp, hild, hmap, hgeo, obj2, hset, hrb⟩
      have hidlt : id < st.loadedMapObjects.length :=
        hMV (item.nmorNameHash, id) (alookup_some_mem hl)
      have hMV2 : ∀ p ∈ (finishPlacement env item id st).nameHashToIndexMap,
          p.2 < (finishPlacement env item id st).loadedMapObjects.length := by
        rw [hmap, hset, List.length_set]
        exact hMV
      rcases ih (finishPlacement env item id st) hMV2 herr with
        ⟨nd, ihdet, ihlen, ihinst, ihdp, ihild, ihloaded, ihkeys⟩
      have hk : ((executeLoadLoop C env rest
          (finishPlacement env item id st)).1.loadedMapObjects.getD id
            LoadedMapObject.empty).renderBatches =
          (st.loadedMapObjects.getD id LoadedMapObject.empty).renderBatches := by
        have hstab := (executeLoadLoop_stable C env rest
          (finishPlacement env item id st)).2 id (by
            rw [hset, List.length_set]
            exact hidlt)
        rw [hstab, hset]
        exact getD_set_renderBatches st.loadedMapObjects id obj2 hrb id
      have hk2 := congrArg List.length hk
      have hmem : item.nmorNameHash ∈ mapKeys st.nameHashToIndexMap := by
        simp only [mapKeys, List.mem_map]
        exact ⟨(item.nmorNameHash, id), alookup_some_mem hl, rfl⟩
      refine ⟨{ loadedIndex := id, instanceIndex := st.instances.length } :: nd,
        ?_, by simp [ihlen], ?_, ?_, ?_, ?_, ?_⟩
      · rw [ihdet, hdet]
        simp
      · simp only [List.length_cons]
        omega
      · rw [detailsBatchSum_cons]
        dsimp only
        omega
      · rw [detailsBatchSum_cons]
        dsimp only
        omega
      · simp only [List.map_cons, countNewHashes, if_pos hmem]
        have hkeys2 : mapKeys (finishPlacement env item id st).nameHashToIndexMap =
            mapKeys st.nameHashToIndexMap := by
          rw [hmap]
        rw [hkeys2] at ihloaded
        have hlm : (finishPlacement env item id st).loadedMapObjects.length =
            st.loadedMapObjects.length := by
          rw [hset, List.length_set]
        omega
      · rw [ihkeys, hmap]
        simp only [List.map_cons, List.toFinset_cons, Finset.insert_union]
        rw [Finset.insert_eq_self.mpr
          (Finset.mem_union_right _ (List.mem_toFinset.mpr hmem))]



theorem rebuildMany_preserves :
    ∀ (ks : List BufferKind) (st : RendererState),
      ∃ b, (rebuildMany ks st).1 = { st with bufs := b } := by
  intro ks
  induction ks with
  | nil => intro st; exact ⟨st.bufs, rfl⟩
  | cons k ks ih =>
    intro st
    simp only [rebuildMany]
    rcases hx : rebuildBuffer k.name k.stagingName (k.size st) (k.getOld st.bufs)
        k.binds st.bufs.nextBufferID with ⟨info, nid, cmds⟩
    dsimp only
    exact ih _

theorem createCountBuffers_preserves (st : RendererState) :
    ∃ b, (createCountBuffers st).1 = { st with bufs := b } := by
  unfold createCountBuffers
  rcases hd : st.bufs.drawCountBuffer with _ | d
  · dsimp only
    rcases ht : st.bufs.triangleCountBuffer with _ | t
    · dsimp only
      exact ⟨_, rfl⟩
    · dsimp only
      exact ⟨_, rfl⟩
  · dsimp only
    rcases ht : st.bufs.triangleCountBuffer with _ | t
    · dsimp only
      exact ⟨_, rfl⟩
    · dsimp only
      exact ⟨_, rfl⟩

theorem createBuffers_preserves (st : RendererState) :
    ∃ b, (createBuffers st).1 = { st with bufs := b } := by
  unfold createBuffers
  rcases hx : rebuildMany bufferKindsA st with ⟨st1, trA, infosA⟩
  rcases rebuildMany_preserves bufferKindsA st with ⟨b1, hb1⟩
  rw [hx] at hb1
  rcases hy : createCountBuffers st1 with ⟨st2, trC⟩
  rcases createCountBuffers_preserves st1 with ⟨b2, hb2⟩
  rw [hy] at hb2
  rcases hz : rebuildMany bufferKindsB st2 with ⟨st3, trB, infosB⟩
  rcases rebuildMany_preserves bufferKindsB st2 with ⟨b3, hb3⟩
  rw [hz] at hb3
  dsimp only at hb1 hb2 hb3 ⊢
  refine ⟨b3, ?_⟩
  simp only [hy]
  simp only [hz]
  rw [hb3, hb2, hb1]

theorem executeLoad_fields (C : FormatConsts) (env : Env) (st : RendererState)
    (h : ¬ st.mapObjectsToBeLoaded.length = 0) :
    (executeLoad C env st).1.loadedMapObjects =
        (executeLoadLoop C env st.mapObjectsToBeLoaded st).1.loadedMapObjects ∧
      (executeLoad C env st).1.instances =
        (executeLoadLoop C env st.mapObjectsToBeLoaded st).1.instances ∧
      (executeLoad C env st).1.mapObjectPlacementDetails =
        (executeLoadLoop C env st.mapObjectsToBeLoaded st).1.mapObjectPlacementDetails ∧
      (executeLoad C env st).1.drawParameters =
        (executeLoadLoop C env st.mapObjectsToBeLoaded st).1.drawParameters ∧
      (executeLoad C env st).1.instanceLookupData =
        (executeLoadLoop C env st.mapObjectsToBeLoaded st).1.instanceLookupData ∧
      (executeLoad C env st).1.nameHashToIndexMap =
        (executeLoadLoop C env st.mapObjectsToBeLoaded st).1.nameHashToIndexMap ∧
      (executeLoad C env st).2.2 =
        (executeLoadLoop C env st.mapObjectsToBeLoaded st).2 := by
  simp only [executeLoad, if_neg h]
  rcases hy : executeLoadLoop C env st.mapObjectsToBeLoaded st with ⟨st1, errs⟩
  dsimp only
  rcases hz : createBuffers st1 with ⟨st2, tr, infos⟩
  rcases createBuffers_preserves st1 with ⟨b, hb⟩
  rw [hz] at hb
  dsimp only at hb ⊢
  rw [hb]
  simp

/-- Claim C1: `ExecuteLoad` creates exactly one `LoadedMapObject` entry
per distinct model name hash of the batch (the first placement loads the
asset and records its index in the name-hash map, later placements reuse
the entry) while every placement still appends its own instance; in
particular two placements referencing the same asset yield one loaded
model and two instances. -/
theorem C1_deduplicated_loading (C : FormatConsts) (env : Env)
    (st : RendererState)
    (hfresh : st.nameHashToIndexMap = [])
    (herr : (executeLoad C env st).2.2 = []) :
    (executeLoad C env st).1.loadedMapObjects.length =
        st.loadedMapObjects.length +
          ((st.mapObjectsToBeLoaded.map (·.nmorNameHash)).dedup).length ∧
      (executeLoad C env st).1.instances.length =
        st.instances.length + st.mapObjectsToBeLoaded.length ∧
      (mapKeys (executeLoad C env st).1.nameHashToIndexMap).toFinset =
        (st.mapObjectsToBeLoaded.map (·.nmorNameHash)).toFinset := by
  by_cases hemp : st.mapObjectsToBeLoaded.length = 0
  · have hnil : st.mapObjectsToBeLoaded = [] := List.length_eq_zero.mp hemp
    have hid : executeLoad C env st = (st, [], []) := by
      simp [executeLoad, hemp]
    rw [hid, hnil, hfresh]
    simp [mapKeys]
  · rcases executeLoad_fields C env st hemp with
      ⟨hlo, hin, _, _, _, hmapf, herr2⟩
    rw [herr2] at herr
    have hMV : ∀ p ∈ st.nameHashToIndexMap,
        p.2 < st.loadedMapObjects.length := by
      rw [hfresh]
      intro p hp
      simp at hp
    rcases executeLoadLoop_master C env st.mapObjectsToBeLoaded st hMV herr with
      ⟨nd, mdet, mlen, minst, mdp, mild, mloaded, mkeys⟩
    refine ⟨?_, ?_, ?_⟩
    · rw [hlo, mloaded, hfresh]
      simp only [mapKeys, List.map_nil]
      rw [countNewHashes_nil_eq_dedup]
    · rw [hin, minst]
    · rw [hmapf, mkeys, hfresh]
      simp [mapKeys]

/-- Claim C2: `AddInstance` appends exactly one instance and exactly one
`DrawParameters` / `InstanceLookupData` pair per render batch of the
target model, so `ExecuteLoad` over N placements that all load
successfully appends exactly N instances, N placement details, and one
draw-call-data entry per render batch of each placement's resolved
model (summed over the placements). -/
theorem C2_instance_and_drawcall_counts (C : FormatConsts) (env : Env)
    (st : RendererState)
    (hfresh : st.nameHashToIndexMap = [])
    (herr : (executeLoad C env st).2.2 = []) :
    (∀ (env2 : Env) (mapObject : LoadedMapObject) (placement : Placement)
        (st2 : RendererState),
        (addInstance env2 mapObject placement st2).2.instances.length =
            st2.instances.length + 1 ∧
          (addInstance env2 mapObject placement st2).2.drawParameters.length =
            st2.drawParameters.length + mapObject.renderBatches.length ∧
          (addInstance env2 mapObject placement st2).2.instanceLookupData.length =
            st2.instanceLookupData.length + mapObject.renderBatches.length) ∧
      ∃ newDetails : List PlacementDetails,
        (executeLoad C env st).1.mapObjectPlacementDetails =
            st.mapObjectPlacementDetails ++ newDetails ∧
          newDetails.length = st.mapObjectsToBeLoaded.length ∧
          (executeLoad C env st).1.instances.length =
            st.instances.length + st.mapObjectsToBeLoaded.length ∧
          (executeLoad C env st).1.drawParameters.length =
            st.drawParameters.length +
              detailsBatchSum (executeLoad C env st).1.loadedMapObjects
                newDetails ∧
          (executeLoad C env st).1.instanceLookupData.length =
            st.instanceLookupData.length +
              detailsBatchSum (executeLoad C env st).1.loadedMapObjects
                newDetails := by
  refine ⟨fun env2 mapObject placement st2 =>
    ⟨(addInstance_fields env2 mapObject placement st2).2.2.1,
      (addInstance_fields env2 mapObject placement st2).1,
      (addInstance_fields env2 mapObject placement st2).2.1⟩, ?_⟩
  by_cases hemp : st.mapObjectsToBeLoaded.length = 0
  · have hid : executeLoad C env st = (st, [], []) := by
      simp [executeLoad, hemp]
    refine ⟨[], by rw [hid]; simp, by simp [hemp], by simp [hid, hemp], ?_, ?_⟩
    · rw [hid]
      simp [detailsBatchSum]
    · rw [hid]
      simp [detailsBatchSum]
  · rcases executeLoad_fields C env st hemp with
      ⟨hlo, hin, hde, hdp, hil, _, herr2⟩
    rw [herr2] at herr
    have hMV : ∀ p ∈ st.nameHashToIndexMap,
        p.2 < st.loadedMapObjects.length := by
      rw [hfresh]
      intro p hp
      simp at hp
    rcases executeLoadLoop_master C env st.mapObjectsToBeLoaded st hMV herr with
      ⟨nd, mdet, mlen, minst, mdp, mild, mloaded, mkeys⟩
    refine ⟨nd, ?_, mlen, ?_, ?_, ?_⟩
    · rw [hde, mdet]
    · rw [hin, minst]
    · rw [hdp, hlo, mdp]
    · rw [hil, hlo, mild]

/-- Claim C1 witness: two registered placements referencing the same
asset in a fresh state produce one loaded model and two instances. -/
theorem C1_deduplicated_loading_witness :
    (testState.nameHashToIndexMap = [] ∧
      (executeLoad testConsts testEnv testState).2.2 = []) ∧
      ((executeLoad testConsts testEnv testState).1.loadedMapObjects.length =
          testState.loadedMapObjects.length +
            ((testState.mapObjectsToBeLoaded.map (·.nmorNameHash)).dedup).length ∧
        (executeLoad testConsts testEnv testState).1.instances.length =
          testState.instances.length + testState.mapObjectsToBeLoaded.length ∧
        (mapKeys (executeLoad testConsts testEnv
              testState).1.nameHashToIndexMap).toFinset =
          (testState.mapObjectsToBeLoaded.map (·.nmorNameHash)).toFinset) :=
  ⟨⟨rfl, rfl⟩, C1_deduplicated_loading testConsts testEnv testState rfl rfl⟩

/-- Claim C2 witness: the same two-placement batch yields two instances,
two placement details and one draw-call-data entry per render batch. -/
theorem C2_instance_and_drawcall_counts_witness :
    (testState.nameHashToIndexMap = [] ∧
      (executeLoad testConsts testEnv testState).2.2 = []) ∧
      ((∀ (env2 : Env) (mapObject : LoadedMapObject) (placement : Placement)
          (st2 : RendererState),
          (addInstance env2 mapObject placement st2).2.instances.length =
              st2.instances.length + 1 ∧
            (addInstance env2 mapObject placement st2).2.drawParameters.length =
              st2.drawParameters.length + mapObject.renderBatches.length ∧
            (addInstance env2 mapObject placement
                st2).2.instanceLookupData.length =
              st2.instanceLookupData.length + mapObject.renderBatches.length) ∧
        ∃ newDetails : List PlacementDetails,
          (executeLoad testConsts testEnv
                testState).1.mapObjectPlacementDetails =
              testState.mapObjectPlacementDetails ++ newDetails ∧
            newDetails.length = testState.mapObjectsToBeLoaded.length ∧
            (executeLoad testConsts testEnv testState).1.instances.length =
              testState.instances.length +
                testState.mapObjectsToBeLoaded.length ∧
            (executeLoad testConsts testEnv testState).1.drawParameters.length =
              testState.drawParameters.length +
                detailsBatchSum
                  (executeLoad testConsts testEnv testState).1.loadedMapObjects
                  newDetails ∧
            (executeLoad testConsts testEnv
                  testState).1.instanceLookupData.length =
              testState.instanceLookupData.length +
                detailsBatchSum
                  (executeLoad testConsts testEnv testState).1.loadedMapObjects
                  newDetails) :=
  ⟨⟨rfl, rfl⟩,
    C2_instance_and_drawcall_counts testConsts testEnv testState rfl rfl⟩

theorem rebuildBuffer_trace (name stagingName : String) (size : Nat)
    (old : Option Nat) (binds : List String) (nextID : Nat) :
    (rebuildBuffer name stagingName size old binds nextID).1 =
        ⟨old, nextID, nextID + 1⟩ ∧
      (rebuildBuffer name stagingName size old binds nextID).2.1 = nextID + 2 ∧
      (rebuildBuffer name stagingName size old binds nextID).2.2 =
        (match old with
          | some b => [GpuCmd.queueDestroyBuffer b]
          | none => []) ++
          [GpuCmd.createBuffer name size nextID,
           GpuCmd.createBuffer stagingName size (nextID + 1),
           GpuCmd.mapBuffer (nextID + 1),
           GpuCmd.writeMapped (nextID + 1) size,
           GpuCmd.unmapBuffer (nextID + 1),
           GpuCmd.queueDestroyBuffer (nextID + 1),
           GpuCmd.copyBuffer nextID 0 (nextID + 1) 0 size] ++
          binds.map (fun s => .bindBuffer s nextID) :=
  ⟨rfl, rfl, rfl⟩

theorem rebuildBuffer_block_props (name stagingName : String) (size : Nat)
    (old : Option Nat) (binds : List String) (nextID : Nat) :
    (∀ oldB, old = some oldB →
        destroyBeforeCreate
          (rebuildBuffer name stagingName size old binds nextID).2.2 oldB
          nextID) ∧
      stagedUploadVia (rebuildBuffer name stagingName size old binds nextID).2.2
        nextID (nextID + 1) ∧
      (∀ id, GpuCmd.mapBuffer id ∈
          (rebuildBuffer name stagingName size old binds nextID).2.2 →
          id = nextID + 1) ∧
      (∀ dst a src b sz, GpuCmd.copyBuffer dst a src b sz ∈
          (rebuildBuffer name stagingName size old binds nextID).2.2 →
          dst = nextID ∧ src = nextID + 1) := by
  have htr := (rebuildBuffer_trace name stagingName size old binds nextID).2.2
  refine ⟨?_, ?_, ?_, ?_⟩
  · intro oldB hold
    subst hold
    refine ⟨name, size, ?_⟩
    rw [htr]
    refine List.Sublist.trans ?_ (List.sublist_append_left _ _)
    exact List.Sublist.cons₂ _ (List.Sublist.cons₂ _ (List.nil_sublist _))
  · refine ⟨name, stagingName, size, ?_⟩
    rw [htr]
    exact (List.sublist_append_right _ _).trans (List.sublist_append_left _ _)
  · intro id hid
    rw [htr] at hid
    rcases old with _ | b <;> simp at hid <;> exact hid
  · intro dst a src b sz hc
    rw [htr] at hc
    rcases old with _ | bb <;> simp at hc <;>
      exact ⟨hc.1, hc.2.2.1⟩

theorem rebuildMany_props :
    ∀ (ks : List BufferKind) (st : RendererState),
      (rebuildMany ks st).2.2.length = ks.length ∧
        st.bufs.nextBufferID ≤ (rebuildMany ks st).1.bufs.nextBufferID ∧
        List.Pairwise (fun a b => a < b) (infoIds (rebuildMany ks st).2.2) ∧
        (∀ x ∈ infoIds (rebuildMany ks st).2.2,
          st.bufs.nextBufferID ≤ x ∧
            x < (rebuildMany ks st).1.bufs.nextBufferID) ∧
        (∀ info ∈ (rebuildMany ks st).2.2,
          info.stagingBuffer = info.newBuffer + 1 ∧
            (∀ oldB, info.oldBuffer = some oldB →
              destroyBeforeCreate (rebuildMany ks st).2.1 oldB info.newBuffer) ∧
            stagedUploadVia (rebuildMany ks st).2.1 info.newBuffer
              info.stagingBuffer) ∧
        (∀ id, GpuCmd.mapBuffer id ∈ (rebuildMany ks st).2.1 →
          ∃ info ∈ (rebuildMany ks st).2.2, id = info.stagingBuffer) ∧
        (∀ dst a src b sz,
          GpuCmd.copyBuffer dst a src b sz ∈ (rebuildMany ks st).2.1 →
          ∃ info ∈ (rebuildMany ks st).2.2,
            dst = info.newBuffer ∧ src = info.stagingBuffer) := by
  intro ks
  induction ks with
  | nil =>
    intro st
    refine ⟨rfl, le_rfl, ?_, ?_, ?_, ?_, ?_⟩ <;>
      simp [rebuildMany, infoIds]
  | cons k ks ih =>
    intro st
    simp only [rebuildMany]
    rcases hx : rebuildBuffer k.name k.stagingName (k.size st) (k.getOld st.bufs)
        k.binds st.bufs.nextBufferID with ⟨info, nid, cmds⟩
    dsimp only
    have h1 : info =
        ⟨k.getOld st.bufs, st.bufs.nextBufferID, st.bufs.nextBufferID + 1⟩ := by
      have h := (rebuildBuffer_trace k.name k.stagingName (k.size st)
        (k.getOld st.bufs) k.binds st.bufs.nextBufferID).1
      rw [hx] at h
      exact h
    have h2 : nid = st.bufs.nextBufferID + 2 := by
      have h := (rebuildBuffer_trace k.name k.stagingName (k.size st)
        (k.getOld st.bufs) k.binds st.bufs.nextBufferID).2.1
      rw [hx] at h
      exact h
    have hnew : info.newBuffer = st.bufs.nextBufferID := by rw [h1]
    have hstag : info.stagingBuffer = st.bufs.nextBufferID + 1 := by rw [h1]
    have hold : info.oldBuffer = k.getOld st.bufs := by rw [h1]
    have hbp := rebuildBuffer_block_props k.name k.stagingName (k.size st)
      (k.getOld st.bufs) k.binds st.bufs.nextBufferID
    rw [hx] at hbp
    dsimp only at hbp
    obtain ⟨hdes, hstg, hmapc, hcopyc⟩ := hbp
    rcases hy : rebuildMany ks
        { st with bufs :=
            { k.setNew st.bufs info.newBuffer with nextBufferID := nid } }
      with ⟨st1, cmds1, infos⟩
    have IH := ih
      { st with bufs :=
          { k.setNew st.bufs info.newBuffer with nextBufferID := nid } }
    rw [hy] at IH
    dsimp only at IH
    obtain ⟨ihlen, ihmono, ihpw, ihbnd, ihinfo, ihmap, ihcopy⟩ := IH
    dsimp only
    refine ⟨?_, ?_, ?_, ?_, ?_, ?_, ?_⟩
    · simp only [List.length_cons, ihlen]
    · rw [h2] at ihmono
      omega
    · simp only [infoIds, List.flatMap_cons, List.cons_append,
        List.nil_append]
      rw [List.pairwise_cons]
      refine ⟨?_, ?_⟩
      · intro x hx2
        rcases List.mem_cons.mp hx2 with hx2 | hx2
        · rw [hx2, hnew, hstag]
          omega
        · have hb := ihbnd x hx2
          rw [h2] at hb
          rw [hnew]
          omega
      · rw [List.pairwise_cons]
        refine ⟨?_, ihpw⟩
        intro x hx2
        have hb := ihbnd x hx2
        rw [h2] at hb
        rw [hstag]
        omega
    · intro x hx2
      simp only [infoIds, List.flatMap_cons, List.cons_append,
        List.nil_append] at hx2
      rw [h2] at ihmono
      rcases List.mem_cons.mp hx2 with hx2 | hx2
      · rw [hx2, hnew]
        omega
      · rcases List.mem_cons.mp hx2 with hx2 | hx2
        · rw [hx2, hstag]
          omega
        · have hb := ihbnd x hx2
          rw [h2] at hb
          omega
    · intro i hi
      rcases List.mem_cons.mp hi with hi | hi
      · subst hi
        refine ⟨by rw [hnew, hstag], ?_, ?_⟩
        · intro oldB holdB
          rw [hold] at holdB
          rcases hdes oldB holdB with ⟨nm, sz, hsub⟩
          rw [hnew]
          exact ⟨nm, sz, hsub.trans (List.sublist_append_left _ _)⟩
        · rcases hstg with ⟨nm, snm, sz, hsub⟩
          rw [hnew, hstag]
          exact ⟨nm, snm, sz, hsub.trans (List.sublist_append_left _ _)⟩
      · obtain ⟨hi1, hi2, hi3⟩ := ihinfo i hi
        refine ⟨hi1, ?_, ?_⟩
        · intro oldB holdB
          rcases hi2 oldB holdB with ⟨nm, sz, hsub⟩
          exact ⟨nm, sz, hsub.trans (List.sublist_append_right _ _)⟩
        · rcases hi3 with ⟨nm, snm, sz, hsub⟩
          exact ⟨nm, snm, sz, hsub.trans (List.sublist_append_right _ _)⟩
    · intro id hid
      rcases List.mem_append.mp hid with hid | hid
      · refine ⟨info, List.mem_cons_self _ _, ?_⟩
        rw [hstag]
        exact hmapc id hid
      · rcases ihmap id hid with ⟨i, hi, hieq⟩
        exact ⟨i, List.mem_cons_of_mem _ hi, hieq⟩
    · intro dst a src b sz hc
      rcases List.mem_append.mp hc with hc | hc
      · obtain ⟨hc1, hc2⟩ := hcopyc dst a src b sz hc
        refine ⟨info, List.mem_cons_self _ _, ?_⟩
        rw [hnew, hstag]
        exact ⟨hc1, hc2⟩
      · rcases ihcopy dst a src b sz hc with ⟨i, hi, hieq⟩
        exact ⟨i, List.mem_cons_of_mem _ hi, hieq⟩

theorem createCountBuffers_trace (st : RendererState) :
    st.bufs.nextBufferID ≤ (createCountBuffers st).1.bufs.nextBufferID ∧
      (∀ id, GpuCmd.mapBuffer id ∉ (createCountBuffers st).2) ∧
      (∀ dst a src b sz,
        GpuCmd.copyBuffer dst a src b sz ∉ (createCountBuffers st).2) := by
  unfold createCountBuffers
  rcases hd : st.bufs.drawCountBuffer with _ | d <;> dsimp only <;>
    [rcases ht : st.bufs.triangleCountBuffer with _ | t;
     rcases ht : st.bufs.triangleCountBuffer with _ | t] <;>
    dsimp only <;>
    refine ⟨by omega, ?_, ?_⟩ <;> intros <;> simp

theorem rebuildMany_A_olds (st : RendererState) :
    ((rebuildMany bufferKindsA st).2.2).map (fun i => i.oldBuffer) =
        [st.bufs.instanceLookupBuffer, st.bufs.argumentBuffer,
         st.bufs.culledArgumentBuffer] ∧
      (rebuildMany bufferKindsA st).1.bufs.vertexBuffer =
        st.bufs.vertexBuffer ∧
      (rebuildMany bufferKindsA st).1.bufs.indexBuffer =
        st.bufs.indexBuffer ∧
      (rebuildMany bufferKindsA st).1.bufs.instanceBuffer =
        st.bufs.instanceBuffer ∧
      (rebuildMany bufferKindsA st).1.bufs.materialBuffer =
        st.bufs.materialBuffer ∧
      (rebuildMany bufferKindsA st).1.bufs.materialParametersBuffer =
        st.bufs.materialParametersBuffer ∧
      (rebuildMany bufferKindsA st).1.bufs.cullingDataBuffer =
        st.bufs.cullingDataBuffer := by
  refine ⟨rfl, rfl, rfl, rfl, rfl, rfl, rfl⟩

theorem rebuildMany_B_olds (st : RendererState) :
    ((rebuildMany bufferKindsB st).2.2).map (fun i => i.oldBuffer) =
      [st.bufs.vertexBuffer, st.bufs.indexBuffer, st.bufs.instanceBuffer,
       st.bufs.materialBuffer, st.bufs.materialParametersBuffer,
       st.bufs.cullingDataBuffer] := rfl

theorem createCountBuffers_B_fields (st : RendererState) :
    (createCountBuffers st).1.bufs.vertexBuffer = st.bufs.vertexBuffer ∧
      (createCountBuffers st).1.bufs.indexBuffer = st.bufs.indexBuffer ∧
      (createCountBuffers st).1.bufs.instanceBuffer = st.bufs.instanceBuffer ∧
      (createCountBuffers st).1.bufs.materialBuffer = st.bufs.materialBuffer ∧
      (createCountBuffers st).1.bufs.materialParametersBuffer =
        st.bufs.materialParametersBuffer ∧
      (createCountBuffers st).1.bufs.cullingDataBuffer =
        st.bufs.cullingDataBuffer := by
  unfold createCountBuffers
  rcases hd : st.bufs.drawCountBuffer with _ | d <;> dsimp only <;>
    [rcases ht : st.bufs.triangleCountBuffer with _ | t;
     rcases ht : st.bufs.triangleCountBuffer with _ | t] <;>
    dsimp only <;> exact ⟨rfl, rfl, rfl, rfl, rfl, rfl⟩

/-- Claim C9: whenever `CreateBuffers` rebuilds a buffer whose previous
handle is still valid, the old device buffer is handed to the
deferred-destruction queue before the replacement is created; the new
buffer is populated exclusively through a transient staging buffer
(every map and every buffer-to-buffer copy in the recorded trace belongs
to some rebuilt kind's staging upload), the staging buffer is itself
queued for deferred destruction, and this holds for all nine rebuilt
kinds — whose old handles are exactly the state's instance-lookup,
argument, culled-argument, vertex, index, instance, material,
material-parameter and culling-data handles — with all nine new and
nine staging buffers pairwise distinct. -/
theorem C9_deferred_buffer_destruction (st : RendererState) :
    ((createBuffers st).2.2).map (fun i => i.oldBuffer) =
        [st.bufs.instanceLookupBuffer, st.bufs.argumentBuffer,
         st.bufs.culledArgumentBuffer, st.bufs.vertexBuffer,
         st.bufs.indexBuffer, st.bufs.instanceBuffer,
         st.bufs.materialBuffer, st.bufs.materialParametersBuffer,
         st.bufs.cullingDataBuffer] ∧
      (∀ info ∈ (createBuffers st).2.2,
        info.stagingBuffer = info.newBuffer + 1 ∧
          (∀ oldB, info.oldBuffer = some oldB →
            destroyBeforeCreate (createBuffers st).2.1 oldB info.newBuffer) ∧
          stagedUploadVia (createBuffers st).2.1 info.newBuffer
            info.stagingBuffer) ∧
      (∀ id, GpuCmd.mapBuffer id ∈ (createBuffers st).2.1 →
        ∃ info ∈ (createBuffers st).2.2, id = info.stagingBuffer) ∧
      (∀ dst a src b sz,
        GpuCmd.copyBuffer dst a src b sz ∈ (createBuffers st).2.1 →
        ∃ info ∈ (createBuffers st).2.2,
          dst = info.newBuffer ∧ src = info.stagingBuffer) ∧
      (infoIds (createBuffers st).2.2).Nodup := by
  unfold createBuffers
  rcases hA : rebuildMany bufferKindsA st with ⟨st1, trA, infosA⟩
  simp only [hA]
  have HA := rebuildMany_props bufferKindsA st
  rw [hA] at HA
  dsimp only at HA
  obtain ⟨hAlen, hAmono, hApw, hAbnd, hAinfo, hAmap, hAcopy⟩ := HA
  have HAold := rebuildMany_A_olds st
  rw [hA] at HAold
  dsimp only at HAold
  obtain ⟨hAolds, hAv, hAi, hAin, hAm, hAmp, hAcd⟩ := HAold
  rcases hC : createCountBuffers st1 with ⟨st2, trC⟩
  simp only [hC]
  have HC := createCountBuffers_trace st1
  rw [hC] at HC
  dsimp only at HC
  obtain ⟨hCmono, hCmap, hCcopy⟩ := HC
  have HCf := createCountBuffers_B_fields st1
  rw [hC] at HCf
  dsimp only at HCf
  rcases hB : rebuildMany bufferKindsB st2 with ⟨st3, trB, infosB⟩
  simp only [hB]
  have HB := rebuildMany_props bufferKindsB st2
  rw [hB] at HB
  dsimp only at HB
  obtain ⟨hBlen, hBmono, hBpw, hBbnd, hBinfo, hBmap, hBcopy⟩ := HB
  have HBold := rebuildMany_B_olds st2
  rw [hB] at HBold
  dsimp only at HBold
  have hsubA : List.Sublist trA (trA ++ (trC ++ trB)) :=
    List.sublist_append_left _ _
  have hsubB : List.Sublist trB (trA ++ (trC ++ trB)) :=
    (List.sublist_append_right _ _).trans (List.sublist_append_right _ _)
  refine ⟨?_, ?_, ?_, ?_, ?_⟩
  · rw [List.map_append, hAolds, HBold]
    rw [HCf.1, HCf.2.1, HCf.2.2.1, HCf.2.2.2.1, HCf.2.2.2.2.1, HCf.2.2.2.2.2]
    rw [hAv, hAi, hAin, hAm, hAmp, hAcd]
    rfl
  · intro i hi
    rcases List.mem_append.mp hi with hi | hi
    · obtain ⟨h1, h2, h3⟩ := hAinfo i hi
      refine ⟨h1, ?_, ?_⟩
      · intro oldB holdB
        rcases h2 oldB holdB with ⟨nm, sz, hsub⟩
        exact ⟨nm, sz, hsub.trans hsubA⟩
      · rcases h3 with ⟨nm, snm, sz, hsub⟩
        exact ⟨nm, snm, sz, hsub.trans hsubA⟩
    · obtain ⟨h1, h2, h3⟩ := hBinfo i hi
      refine ⟨h1, ?_, ?_⟩
      · intro oldB holdB
        rcases h2 oldB holdB with ⟨nm, sz, hsub⟩
        exact ⟨nm, sz, hsub.trans hsubB⟩
      · rcases h3 with ⟨nm, snm, sz, hsub⟩
        exact ⟨nm, snm, sz, hsub.trans hsubB⟩
  · intro id hid
    rcases List.mem_append.mp hid with hid | hid
    · rcases hAmap id hid with ⟨i, hi, hieq⟩
      exact ⟨i, List.mem_append_left _ hi, hieq⟩
    · rcases List.mem_append.mp hid with hid | hid
      · exact absurd hid (hCmap id)
      · rcases hBmap id hid with ⟨i, hi, hieq⟩
        exact ⟨i, List.mem_append_right _ hi, hieq⟩
  · intro dst a src b sz hc
    rcases List.mem_append.mp hc with hc | hc
    · rcases hAcopy dst a src b sz hc with ⟨i, hi, hieq⟩
      exact ⟨i, List.mem_append_left _ hi, hieq⟩
    · rcases List.mem_append.mp hc with hc | hc
      · exact absurd hc (hCcopy dst a src b sz)
      · rcases hBcopy dst a src b sz hc with ⟨i, hi, hieq⟩
        exact ⟨i, List.mem_append_right _ hi, hieq⟩
  · have hids : infoIds (infosA ++ infosB) =
        infoIds infosA ++ infoIds infosB := by
      simp [infoIds]
    rw [hids]
    have hpw : List.Pairwise (fun a b => a < b)
        (infoIds infosA ++ infoIds infosB) := by
      rw [List.pairwise_append]
      refine ⟨hApw, hBpw, ?_⟩
      intro x hx y hy
      have hx2 := (hAbnd x hx).2
      have hy2 := (hBbnd y hy).1
      omega
    exact hpw.imp (fun h => Nat.ne_of_lt h)

theorem C9_deferred_buffer_destruction_witness :
    (GpuCmd.mapBuffer 14 ∈ (createBuffers testBufState).2.1 ∧
        testBufState.bufs.instanceLookupBuffer = some 0) ∧
      ((createBuffers testBufState).2.2).map (fun i => i.oldBuffer) =
          [testBufState.bufs.instanceLookupBuffer,
           testBufState.bufs.argumentBuffer,
           testBufState.bufs.culledArgumentBuffer,
           testBufState.bufs.vertexBuffer, testBufState.bufs.indexBuffer,
           testBufState.bufs.instanceBuffer, testBufState.bufs.materialBuffer,
           testBufState.bufs.materialParametersBuffer,
           testBufState.bufs.cullingDataBuffer] ∧
        ∃ info ∈ (createBuffers testBufState).2.2, 14 = info.stagingBuffer :=
  ⟨⟨by decide, by decide⟩,
    (C9_deferred_buffer_destruction testBufState).1,
    (C9_deferred_buffer_destruction testBufState).2.2.1 14 (by decide)⟩

end NovusCore
